import Mathlib

/-!
# Scoped cuDNN descriptor wrappers (`paddle/platform/cudnn_helper.h`)

A shallow embedding of the four scoped descriptor wrappers
(`ScopedTensorDescriptor`, `ScopedFilterDescriptor`,
`ScopedConvolutionDescriptor`, `ScopedPoolingDescriptor`), of
`GetCudnnTensorFormat` and of `CudnnDataType`.

* `std::vector<int>` is `List Int`; every indexed access is bounds checked and
  an access out of bounds is the outcome `undefined`.
* `int` arithmetic is done in `Int` and wrapped to 32 bits (`wrapInt32`), the
  loop index `i + 1` included; `size_t` arithmetic is wrapped to 64 bits
  (`sizeSub`), and an `int` used as an index is converted to `size_t`
  (`intToSize`).
* The vendor library is a `World`: the list of live descriptor handles and the
  log of the vendor entry points called so far, with their arguments.  The
  status a vendor call answers with is an argument of the operation that makes
  the call.
* An operation ends in an `Outcome`: it returns, it raises `EnforceNotMet`, it
  calls `std::terminate` (an exception leaving a destructor), or its behaviour
  is undefined.
-/

namespace paddle
namespace platform

/-! ## Enumerations of the header -/

/-- The enum class `DataLayout`. -/
inductive DataLayout
  | kNHWC
  | kNCHW
  | kNCHW_VECT_C
  deriving DecidableEq, Repr

/-- The enum class `PoolingMode`. -/
inductive PoolingMode
  | kMaximum
  | kAverage
  deriving DecidableEq, Repr

/-- The element types `T` at which `CudnnDataType<T>` is specialised. -/
inductive ScalarType
  | float
  | double
  deriving DecidableEq, Repr

/-! ## Vendor types (declared in the vendor header, which is not part of the sources) -/

/-- Modelled from the spec: the vendor's numeric type tag `cudnnDataType_t`. -/
inductive cudnnDataType_t
  | CUDNN_DATA_FLOAT
  | CUDNN_DATA_DOUBLE
  | CUDNN_DATA_HALF
  deriving DecidableEq, Repr

/-- Modelled from the spec: the vendor format enum `cudnnTensorFormat_t`. -/
inductive cudnnTensorFormat_t
  | CUDNN_TENSOR_NCHW
  | CUDNN_TENSOR_NHWC
  | CUDNN_TENSOR_NCHW_VECT_C
  deriving DecidableEq, Repr

/-- Modelled from the spec: the vendor enum `cudnnPoolingMode_t`. -/
inductive cudnnPoolingMode_t
  | CUDNN_POOLING_MAX
  | CUDNN_POOLING_AVERAGE_COUNT_INCLUDE_PADDING
  | CUDNN_POOLING_AVERAGE_COUNT_EXCLUDE_PADDING
  deriving DecidableEq, Repr

/-- Modelled from the spec: the vendor enum `cudnnNanPropagation_t`. -/
inductive cudnnNanPropagation_t
  | CUDNN_NOT_PROPAGATE_NAN
  | CUDNN_PROPAGATE_NAN
  deriving DecidableEq, Repr

/-- Modelled from the spec: the vendor enum `cudnnConvolutionMode_t`. -/
inductive cudnnConvolutionMode_t
  | CUDNN_CONVOLUTION
  | CUDNN_CROSS_CORRELATION
  deriving DecidableEq, Repr

/-- Modelled from the spec: the vendor status `cudnnStatus_t`, by its numeric value. -/
abbrev cudnnStatus_t := Nat

/-- The status `CUDNN_STATUS_SUCCESS`. -/
def CUDNN_STATUS_SUCCESS : cudnnStatus_t := 0

/-- The status `CUDNN_STATUS_BAD_PARAM`. -/
def CUDNN_STATUS_BAD_PARAM : cudnnStatus_t := 3

/-- A vendor descriptor handle (`cudnnTensorDescriptor_t` and its three siblings):
a pointer the wrapper never looks into. -/
abbrev Handle := Nat

/-- The four kinds of descriptor the vendor hands out. -/
inductive DescKind
  | tensor
  | filter
  | convolution
  | pooling
  deriving DecidableEq, Repr

/-! ## The vendor library as a world of live handles and logged calls -/

/-- One call of a vendor entry point, with the arguments it received.  An array
argument is recorded as the whole vector whose `data()` was passed. -/
inductive VendorCall
  | create (kind : DescKind) (status : cudnnStatus_t) (desc : Handle)
  | destroy (kind : DescKind) (desc : Handle)
  | setTensorNd (desc : Handle) (dataType : cudnnDataType_t) (nbDims : Nat)
      (dimA strideA : List Int)
  | setFilterNd (desc : Handle) (dataType : cudnnDataType_t) (format : cudnnTensorFormat_t)
      (nbDims : Nat) (filterDimA : List Int)
  | setConvolutionNd (desc : Handle) (arrayLength : Nat) (padA filterStrideA dilationA : List Int)
      (mode : cudnnConvolutionMode_t) (dataType : cudnnDataType_t)
  | setPoolingNd (desc : Handle) (mode : cudnnPoolingMode_t) (nanOpt : cudnnNanPropagation_t)
      (nbDims : Nat) (windowDimA paddingA strideA : List Int)
  deriving DecidableEq, Repr

/-- The state of the vendor library: the handles that are allocated and not yet
released, and every vendor call made so far, oldest first. -/
structure World where
  live : List (DescKind × Handle)
  calls : List VendorCall
  deriving DecidableEq, Repr

/-- Modelled from the spec: the vendor's `cudnnCreate*Descriptor`.  The vendor answers
with status `st` and, when that is success, with the newly allocated handle `h`. -/
def cudnnCreateDescriptor (kind : DescKind) (st : cudnnStatus_t) (h : Handle) (w : World) :
    World :=
  { live := if st = CUDNN_STATUS_SUCCESS then (kind, h) :: w.live else w.live
    calls := w.calls ++ [VendorCall.create kind st h] }

/-- Modelled from the spec: the vendor's `cudnnDestroy*Descriptor`.  A live handle is
released and the answer is success; any other handle is refused. -/
def cudnnDestroyDescriptor (kind : DescKind) (h : Handle) (w : World) :
    cudnnStatus_t × World :=
  if (kind, h) ∈ w.live then
    (CUDNN_STATUS_SUCCESS,
      { live := w.live.erase (kind, h), calls := w.calls ++ [VendorCall.destroy kind h] })
  else
    (CUDNN_STATUS_BAD_PARAM,
      { live := w.live, calls := w.calls ++ [VendorCall.destroy kind h] })

/-- Modelled from the spec: a vendor `cudnnSet*NdDescriptor` entry point.  It configures
an existing descriptor: the call is logged and no handle is allocated or released. -/
def cudnnSetDescriptor (c : VendorCall) (w : World) : World :=
  { live := w.live, calls := w.calls ++ [c] }

/-! ## Outcomes -/

/-- The ways in which an operation leaves the C++ abstract machine. -/
inductive UB
  | outOfBounds
  | divByZero
  | divOverflow
  deriving DecidableEq, Repr

/-- The exception `EnforceNotMet`, by the site that raised it. -/
inductive EnforceNotMet
  | status (st : cudnnStatus_t)
  | notEqual (a b : Int) (msg : String)
  | thrown (msg : String)
  deriving DecidableEq, Repr

/-- What an operation running on a world ends in. -/
inductive Outcome (α : Type)
  | returns (a : α) (w : World)
  | raises (e : EnforceNotMet) (w : World)
  | terminates (w : World)
  | undefined (u : UB)
  deriving DecidableEq, Repr

/-- The world an outcome leaves behind, when it leaves one: there is none after
`std::terminate` and none after undefined behaviour. -/
def Outcome.world? {α : Type} : Outcome α → Option World
  | Outcome.returns _ w => some w
  | Outcome.raises _ w => some w
  | Outcome.terminates _ => none
  | Outcome.undefined _ => none

/-- The operation raised. -/
def Outcome.isRaise {α : Type} : Outcome α → Bool
  | Outcome.raises _ _ => true
  | _ => false

/-- Modelled from the spec: the macro `PADDLE_ENFORCE` of `paddle/platform/enforce.h`
applied to a vendor status: it raises unless the status is success. -/
def PADDLE_ENFORCE {α : Type} (st : cudnnStatus_t) (w : World) (a : α) : Outcome α :=
  if st = CUDNN_STATUS_SUCCESS then Outcome.returns a w
  else Outcome.raises (EnforceNotMet.status st) w

/-- An exception that leaves a destructor: a destructor is implicitly `noexcept`, so
`std::terminate` is called. -/
def noexceptDestructor {α : Type} : Outcome α → Outcome α
  | Outcome.raises _ w => Outcome.terminates w
  | o => o

/-! ## Machine integers and vectors -/

/-- The value of a 32-bit `int` holding `x` modulo `2^32`: the representative of `x` in
`[-2^31, 2^31)`, computed on the magnitude of `x`. -/
def wrapInt32 : Int → Int
  | Int.ofNat n =>
    if n % 4294967296 < 2147483648 then Int.ofNat (n % 4294967296)
    else Int.negSucc (4294967295 - n % 4294967296)
  | Int.negSucc n =>
    if n % 4294967296 < 2147483648 then Int.negSucc (n % 4294967296)
    else Int.ofNat (4294967295 - n % 4294967296)

/-- The predicate: `x` is representable in a 32-bit `int`. -/
def fitsInt32 (x : Int) : Prop := -2147483648 ≤ x ∧ x < 2147483648

instance (x : Int) : Decidable (fitsInt32 x) := by unfold fitsInt32; infer_instance

/-- The sum `a + b` of two `int`. -/
def addInt32 (a b : Int) : Int := wrapInt32 (a + b)

/-- The conversion of an `int` to `size_t`, as happens to an `int` passed to
`operator[]`: a negative value wraps around `2^64`. -/
def intToSize : Int → Nat
  | Int.ofNat n => n
  | Int.negSucc n => 18446744073709551615 - n

/-- The product `a * b` of two `int`. -/
def mulInt32 (a b : Int) : Int := wrapInt32 (a * b)

/-- The quotient `a / b` of two `int`: truncating, undefined for a zero divisor. -/
def divInt32 (a b : Int) : Except UB Int :=
  if b = 0 then Except.error UB.divByZero
  else if a = -2147483648 ∧ b = -1 then Except.error UB.divOverflow
  else Except.ok (Int.tdiv a b)

/-- The difference `a - b` of two `size_t`: below zero it wraps around `2^64`. -/
def sizeSub (a b : Nat) : Nat := if b ≤ a then a - b else 18446744073709551616 - (b - a)

/-- The conversion of a `size_t` to `int`. -/
def sizeToInt (n : Nat) : Int := wrapInt32 (n : Int)

/-- The read `xs[i]` of a vector. -/
def vecGet (xs : List Int) (i : Nat) : Except UB Int :=
  match xs[i]? with
  | some v => Except.ok v
  | none => Except.error UB.outOfBounds

/-- The write `xs[i] = v` to a vector. -/
def vecSet (xs : List Int) (i : Nat) (v : Int) : Except UB (List Int) :=
  if i < xs.length then Except.ok (xs.set i v) else Except.error UB.outOfBounds

/-! ## `CudnnDataType` and `GetCudnnTensorFormat` -/

/-- The member `CudnnDataType<T>::type`. -/
def CudnnDataType.type : ScalarType → cudnnDataType_t
  | ScalarType.float => cudnnDataType_t.CUDNN_DATA_FLOAT
  | ScalarType.double => cudnnDataType_t.CUDNN_DATA_DOUBLE

/-- The function `GetCudnnTensorFormat`: the `default` branch is `PADDLE_THROW`. -/
def GetCudnnTensorFormat (order : DataLayout) : Except EnforceNotMet cudnnTensorFormat_t :=
  match order with
  | DataLayout.kNHWC => Except.ok cudnnTensorFormat_t.CUDNN_TENSOR_NHWC
  | DataLayout.kNCHW => Except.ok cudnnTensorFormat_t.CUDNN_TENSOR_NCHW
  | _ => Except.error (EnforceNotMet.thrown ("Unknown cudnn equivalent for order"))

/-! ## `ScopedTensorDescriptor` -/

/-- The class `ScopedTensorDescriptor`: its only member is the handle `desc_`. -/
structure ScopedTensorDescriptor where
  desc_ : Handle
  deriving DecidableEq, Repr

/-- The constructor: `PADDLE_ENFORCE(cudnnCreateTensorDescriptor(&desc_))`.  The vendor
answers with status `st` and handle `h`. -/
def ScopedTensorDescriptor.construct (st : cudnnStatus_t) (h : Handle) (w : World) :
    Outcome ScopedTensorDescriptor :=
  PADDLE_ENFORCE st (cudnnCreateDescriptor DescKind.tensor st h w) { desc_ := h }

/-- The destructor: `PADDLE_ENFORCE(cudnnDestroyTensorDescriptor(desc_))`.  The destructor is implicitly
`noexcept`: were the vendor to refuse the handle, the exception would terminate. -/
def ScopedTensorDescriptor.destruct (self : ScopedTensorDescriptor) (w : World) :
    Outcome Unit :=
  noexceptDestructor
    (PADDLE_ENFORCE (cudnnDestroyDescriptor DescKind.tensor self.desc_ w).1
      (cudnnDestroyDescriptor DescKind.tensor self.desc_ w).2 ())

/-- The loop `for (int i = ...; i >= 0; i--) strides[i] = dims[i + 1] * strides[i + 1];`
with `k` iterations left: the loop variable `i` is `k - 1`, and the loop is over when
`i` is `-1`.  The index `i + 1` is an `int` sum, converted to `size_t` by `operator[]`. -/
def ScopedTensorDescriptor.stridesLoop (dims : List Int) : Nat → List Int → Except UB (List Int)
  | 0, strides => Except.ok strides
  | i + 1, strides => do
      let d ← vecGet dims (intToSize (addInt32 (i : Int) 1))
      let s ← vecGet strides (intToSize (addInt32 (i : Int) 1))
      let strides ← vecSet strides i (mulInt32 d s)
      ScopedTensorDescriptor.stridesLoop dims i strides

/-- The number of iterations of the loop that starts at `int i = dims.size() - 2`:
`i + 1` when `i` is not negative, none otherwise. -/
def ScopedTensorDescriptor.loopCount (size : Nat) : Nat :=
  (sizeToInt (sizeSub size 2) + 1).toNat

/-- The body of `descriptor` up to the vendor call: the vectors `dims_with_group` and
`strides` whose `data()` the vendor call receives. -/
def ScopedTensorDescriptor.arrays (dims : List Int) (groups : Int) :
    Except UB (List Int × List Int) := do
  -- std::vector<int> strides(dims.size());
  let strides := List.replicate dims.length (0 : Int)
  -- strides[dims.size() - 1] = 1;
  let strides ← vecSet strides (sizeSub dims.length 1) 1
  let strides ← ScopedTensorDescriptor.stridesLoop dims
    (ScopedTensorDescriptor.loopCount dims.length) strides
  -- std::vector<int> dims_with_group(dims.begin(), dims.end());
  let dims_with_group := dims
  if groups > 1 then do
    -- dims_with_group[1] = dims_with_group[1] / groups;
    let d ← vecGet dims_with_group 1
    let q ← divInt32 d groups
    let dims_with_group ← vecSet dims_with_group 1 q
    pure (dims_with_group, strides)
  else
    pure (dims_with_group, strides)

/-- The member `descriptor(format, type, dims, groups)`; `st` is the status the vendor
answers `cudnnSetTensorNdDescriptor` with. -/
def ScopedTensorDescriptor.descriptor (self : ScopedTensorDescriptor) (st : cudnnStatus_t)
    (format : cudnnTensorFormat_t) (type : cudnnDataType_t) (dims : List Int) (groups : Int)
    (w : World) : Outcome Handle :=
  -- the format is not used now, will add later
  let _ := format
  match ScopedTensorDescriptor.arrays dims groups with
  | Except.error u => Outcome.undefined u
  | Except.ok (dims_with_group, strides) =>
    PADDLE_ENFORCE st
      (cudnnSetDescriptor
        (VendorCall.setTensorNd self.desc_ type dims_with_group.length dims_with_group strides) w)
      self.desc_

/-- The member template `descriptor<T>(order, dims, groups)`. -/
def ScopedTensorDescriptor.descriptorT (self : ScopedTensorDescriptor) (st : cudnnStatus_t)
    (T : ScalarType) (order : DataLayout) (dims : List Int) (groups : Int) (w : World) :
    Outcome Handle :=
  match GetCudnnTensorFormat order with
  | Except.error e => Outcome.raises e w
  | Except.ok format =>
    ScopedTensorDescriptor.descriptor self st format (CudnnDataType.type T) dims groups w

/-! ## `ScopedFilterDescriptor` -/

/-- The class `ScopedFilterDescriptor`. -/
structure ScopedFilterDescriptor where
  desc_ : Handle
  deriving DecidableEq, Repr

/-- The constructor: `PADDLE_ENFORCE(cudnnCreateFilterDescriptor(&desc_))`. -/
def ScopedFilterDescriptor.construct (st : cudnnStatus_t) (h : Handle) (w : World) :
    Outcome ScopedFilterDescriptor :=
  PADDLE_ENFORCE st (cudnnCreateDescriptor DescKind.filter st h w) { desc_ := h }

/-- The destructor: `PADDLE_ENFORCE(cudnnDestroyFilterDescriptor(desc_))`.  The destructor is implicitly
`noexcept`: were the vendor to refuse the handle, the exception would terminate. -/
def ScopedFilterDescriptor.destruct (self : ScopedFilterDescriptor) (w : World) :
    Outcome Unit :=
  noexceptDestructor
    (PADDLE_ENFORCE (cudnnDestroyDescriptor DescKind.filter self.desc_ w).1
      (cudnnDestroyDescriptor DescKind.filter self.desc_ w).2 ())

/-- The body of `descriptor` up to the vendor call: the vector `kernel_with_group`. -/
def ScopedFilterDescriptor.arrays (kernel : List Int) (groups : Int) : Except UB (List Int) := do
  -- std::vector<int> kernel_with_group(kernel.begin(), kernel.end());
  let kernel_with_group := kernel
  if groups > 1 then do
    -- kernel_with_group[0] /= groups;
    let m ← vecGet kernel_with_group 0
    let q ← divInt32 m groups
    vecSet kernel_with_group 0 q
  else
    pure kernel_with_group

/-- The member `descriptor(format, type, kernel, groups)`; `st` is the status the vendor
answers `cudnnSetFilterNdDescriptor` with. -/
def ScopedFilterDescriptor.descriptor (self : ScopedFilterDescriptor) (st : cudnnStatus_t)
    (format : cudnnTensorFormat_t) (type : cudnnDataType_t) (kernel : List Int) (groups : Int)
    (w : World) : Outcome Handle :=
  match ScopedFilterDescriptor.arrays kernel groups with
  | Except.error u => Outcome.undefined u
  | Except.ok kernel_with_group =>
    PADDLE_ENFORCE st
      (cudnnSetDescriptor
        (VendorCall.setFilterNd self.desc_ type format kernel_with_group.length
          kernel_with_group) w)
      self.desc_

/-- The member template `descriptor<T>(order, kernel, groups)`. -/
def ScopedFilterDescriptor.descriptorT (self : ScopedFilterDescriptor) (st : cudnnStatus_t)
    (T : ScalarType) (order : DataLayout) (kernel : List Int) (groups : Int) (w : World) :
    Outcome Handle :=
  match GetCudnnTensorFormat order with
  | Except.error e => Outcome.raises e w
  | Except.ok format =>
    ScopedFilterDescriptor.descriptor self st format (CudnnDataType.type T) kernel groups w

/-! ## `ScopedConvolutionDescriptor` -/

/-- The class `ScopedConvolutionDescriptor`. -/
structure ScopedConvolutionDescriptor where
  desc_ : Handle
  deriving DecidableEq, Repr

/-- The constructor: `PADDLE_ENFORCE(cudnnCreateConvolutionDescriptor(&desc_))`. -/
def ScopedConvolutionDescriptor.construct (st : cudnnStatus_t) (h : Handle) (w : World) :
    Outcome ScopedConvolutionDescriptor :=
  PADDLE_ENFORCE st (cudnnCreateDescriptor DescKind.convolution st h w) { desc_ := h }

/-- The destructor: `PADDLE_ENFORCE(cudnnDestroyConvolutionDescriptor(desc_))`.  The destructor is implicitly
`noexcept`: were the vendor to refuse the handle, the exception would terminate. -/
def ScopedConvolutionDescriptor.destruct (self : ScopedConvolutionDescriptor) (w : World) :
    Outcome Unit :=
  noexceptDestructor
    (PADDLE_ENFORCE (cudnnDestroyDescriptor DescKind.convolution self.desc_ w).1
      (cudnnDestroyDescriptor DescKind.convolution self.desc_ w).2 ())

/-- The loop `for (size_t i = 0; i < dilations.size(); ++i) PADDLE_ENFORCE_EQ(dilations[i], 1, ...)`
over the entries not yet visited: the first entry that is not 1 raises. -/
def ScopedConvolutionDescriptor.dilationLoop : List Int → Except EnforceNotMet Unit
  | [] => Except.ok ()
  | d :: rest =>
    if d = 1 then ScopedConvolutionDescriptor.dilationLoop rest
    else Except.error
      (EnforceNotMet.notEqual d 1 ("Dilations conv is not supported in this cuDNN version"))

/-- The block under `#if CUDNN_VERSION < 6000`, with the version as an argument. -/
def ScopedConvolutionDescriptor.dilationCheck (CUDNN_VERSION : Nat) (dilations : List Int) :
    Except EnforceNotMet Unit :=
  if CUDNN_VERSION < 6000 then ScopedConvolutionDescriptor.dilationLoop dilations
  else Except.ok ()

/-- The member `descriptor(type, pads, strides, dilations)`; `st` is the status the vendor
answers `cudnnSetConvolutionNdDescriptor` with. -/
def ScopedConvolutionDescriptor.descriptor (CUDNN_VERSION : Nat)
    (self : ScopedConvolutionDescriptor) (st : cudnnStatus_t) (type : cudnnDataType_t)
    (pads strides dilations : List Int) (w : World) : Outcome Handle :=
  -- PADDLE_ENFORCE_EQ(pads.size(), strides.size());
  if pads.length ≠ strides.length then
    Outcome.raises (EnforceNotMet.notEqual pads.length strides.length ("")) w
  -- PADDLE_ENFORCE_EQ(pads.size(), dilations.size());
  else if pads.length ≠ dilations.length then
    Outcome.raises (EnforceNotMet.notEqual pads.length dilations.length ("")) w
  else
    match ScopedConvolutionDescriptor.dilationCheck CUDNN_VERSION dilations with
    | Except.error e => Outcome.raises e w
    | Except.ok _ =>
      PADDLE_ENFORCE st
        (cudnnSetDescriptor
          (VendorCall.setConvolutionNd self.desc_ pads.length pads strides dilations
            cudnnConvolutionMode_t.CUDNN_CROSS_CORRELATION type) w)
        self.desc_

/-- The member template `descriptor<T>(pads, strides, dilations)`. -/
def ScopedConvolutionDescriptor.descriptorT (CUDNN_VERSION : Nat)
    (self : ScopedConvolutionDescriptor) (st : cudnnStatus_t) (T : ScalarType)
    (pads strides dilations : List Int) (w : World) : Outcome Handle :=
  ScopedConvolutionDescriptor.descriptor CUDNN_VERSION self st (CudnnDataType.type T)
    pads strides dilations w

/-! ## `ScopedPoolingDescriptor` -/

/-- The class `ScopedPoolingDescriptor`. -/
structure ScopedPoolingDescriptor where
  desc_ : Handle
  deriving DecidableEq, Repr

/-- The constructor: `PADDLE_ENFORCE(cudnnCreatePoolingDescriptor(&desc_))`. -/
def ScopedPoolingDescriptor.construct (st : cudnnStatus_t) (h : Handle) (w : World) :
    Outcome ScopedPoolingDescriptor :=
  PADDLE_ENFORCE st (cudnnCreateDescriptor DescKind.pooling st h w) { desc_ := h }

/-- The destructor: `PADDLE_ENFORCE(cudnnDestroyPoolingDescriptor(desc_))`.  The destructor is implicitly
`noexcept`: were the vendor to refuse the handle, the exception would terminate. -/
def ScopedPoolingDescriptor.destruct (self : ScopedPoolingDescriptor) (w : World) :
    Outcome Unit :=
  noexceptDestructor
    (PADDLE_ENFORCE (cudnnDestroyDescriptor DescKind.pooling self.desc_ w).1
      (cudnnDestroyDescriptor DescKind.pooling self.desc_ w).2 ())

/-- The member `descriptor(mode, kernel, pads, strides)`; `st` is the status the vendor
answers `cudnnSetPoolingNdDescriptor` with. -/
def ScopedPoolingDescriptor.descriptor (self : ScopedPoolingDescriptor) (st : cudnnStatus_t)
    (mode : PoolingMode) (kernel pads strides : List Int) (w : World) : Outcome Handle :=
  -- PADDLE_ENFORCE_EQ(kernel.size(), pads.size());
  if kernel.length ≠ pads.length then
    Outcome.raises (EnforceNotMet.notEqual kernel.length pads.length ("")) w
  -- PADDLE_ENFORCE_EQ(kernel.size(), strides.size());
  else if kernel.length ≠ strides.length then
    Outcome.raises (EnforceNotMet.notEqual kernel.length strides.length ("")) w
  else
    PADDLE_ENFORCE st
      (cudnnSetDescriptor
        (VendorCall.setPoolingNd self.desc_
          (if mode = PoolingMode.kMaximum then cudnnPoolingMode_t.CUDNN_POOLING_MAX
           else cudnnPoolingMode_t.CUDNN_POOLING_AVERAGE_COUNT_EXCLUDE_PADDING)
          cudnnNanPropagation_t.CUDNN_PROPAGATE_NAN
          kernel.length kernel pads strides) w)
      self.desc_

/-! ## The lifetime of a scoped wrapper -/

/-- A call of `ScopedTensorDescriptor::descriptor`, by overload, with the status the
vendor answers with. -/
inductive ScopedTensorDescriptor.Call
  | direct (st : cudnnStatus_t) (format : cudnnTensorFormat_t) (type : cudnnDataType_t)
      (dims : List Int) (groups : Int)
  | templated (st : cudnnStatus_t) (T : ScalarType) (order : DataLayout) (dims : List Int)
      (groups : Int)

/-- The call `self.descriptor(...)`. -/
def ScopedTensorDescriptor.call (self : ScopedTensorDescriptor) :
    ScopedTensorDescriptor.Call → World → Outcome Handle
  | ScopedTensorDescriptor.Call.direct st format type dims groups, w =>
    ScopedTensorDescriptor.descriptor self st format type dims groups w
  | ScopedTensorDescriptor.Call.templated st T order dims groups, w =>
    ScopedTensorDescriptor.descriptorT self st T order dims groups w

/-- A call of `ScopedFilterDescriptor::descriptor`, by overload. -/
inductive ScopedFilterDescriptor.Call
  | direct (st : cudnnStatus_t) (format : cudnnTensorFormat_t) (type : cudnnDataType_t)
      (kernel : List Int) (groups : Int)
  | templated (st : cudnnStatus_t) (T : ScalarType) (order : DataLayout) (kernel : List Int)
      (groups : Int)

/-- The call `self.descriptor(...)`. -/
def ScopedFilterDescriptor.call (self : ScopedFilterDescriptor) :
    ScopedFilterDescriptor.Call → World → Outcome Handle
  | ScopedFilterDescriptor.Call.direct st format type kernel groups, w =>
    ScopedFilterDescriptor.descriptor self st format type kernel groups w
  | ScopedFilterDescriptor.Call.templated st T order kernel groups, w =>
    ScopedFilterDescriptor.descriptorT self st T order kernel groups w

/-- A call of `ScopedConvolutionDescriptor::descriptor`, by overload. -/
inductive ScopedConvolutionDescriptor.Call
  | direct (st : cudnnStatus_t) (type : cudnnDataType_t) (pads strides dilations : List Int)
  | templated (st : cudnnStatus_t) (T : ScalarType) (pads strides dilations : List Int)

/-- The call `self.descriptor(...)`. -/
def ScopedConvolutionDescriptor.call (CUDNN_VERSION : Nat) (self : ScopedConvolutionDescriptor) :
    ScopedConvolutionDescriptor.Call → World → Outcome Handle
  | ScopedConvolutionDescriptor.Call.direct st type pads strides dilations, w =>
    ScopedConvolutionDescriptor.descriptor CUDNN_VERSION self st type pads strides dilations w
  | ScopedConvolutionDescriptor.Call.templated st T pads strides dilations, w =>
    ScopedConvolutionDescriptor.descriptorT CUDNN_VERSION self st T pads strides dilations w

/-- A call of `ScopedPoolingDescriptor::descriptor`. -/
structure ScopedPoolingDescriptor.Call where
  st : cudnnStatus_t
  mode : PoolingMode
  kernel : List Int
  pads : List Int
  strides : List Int

/-- The call `self.descriptor(...)`. -/
def ScopedPoolingDescriptor.call (self : ScopedPoolingDescriptor)
    (c : ScopedPoolingDescriptor.Call) (w : World) : Outcome Handle :=
  ScopedPoolingDescriptor.descriptor self c.st c.mode c.kernel c.pads c.strides w

/-- A sequence of `descriptor()` calls on one wrapper: a call that raises ends the
sequence, and so does one that terminates or whose behaviour is undefined. -/
def runCalls {S A : Type} (call : S → A → World → Outcome Handle) (self : S) :
    List A → World → Outcome Unit
  | [], w => Outcome.returns () w
  | a :: rest, w =>
    match call self a w with
    | Outcome.returns _ w' => runCalls call self rest w'
    | Outcome.raises e w' => Outcome.raises e w'
    | Outcome.terminates w' => Outcome.terminates w'
    | Outcome.undefined u => Outcome.undefined u

/-- The block `{ Wrapper d; d.descriptor(...); ... }`: the constructor, the calls, and
the destructor, which runs when the block is left normally and when it is left by an
exception of a call.  A constructor that raises leaves no object to destroy, and an
exception during the unwinding terminates. -/
def scopedLifetime {S A : Type} (construct : World → Outcome S)
    (call : S → A → World → Outcome Handle) (destruct : S → World → Outcome Unit)
    (calls : List A) (w : World) : Outcome Unit :=
  match construct w with
  | Outcome.raises e w₁ => Outcome.raises e w₁
  | Outcome.terminates w₁ => Outcome.terminates w₁
  | Outcome.undefined u => Outcome.undefined u
  | Outcome.returns self w₁ =>
    match runCalls call self calls w₁ with
    | Outcome.undefined u => Outcome.undefined u
    | Outcome.terminates w₂ => Outcome.terminates w₂
    | Outcome.returns _ w₂ => destruct self w₂
    | Outcome.raises e w₂ =>
      match destruct self w₂ with
      | Outcome.returns _ w₃ => Outcome.raises e w₃
      | Outcome.raises _ w₃ => Outcome.terminates w₃
      | Outcome.terminates w₃ => Outcome.terminates w₃
      | Outcome.undefined u => Outcome.undefined u

/-- The statement that a wrapper does not leak: construction allocates exactly one
handle (none when it raises), a `descriptor()` call that returns or raises leaves the
live handles as they are, destruction releases the handle of construction, and after
the block `construct, calls, destruct` the live handles are those before it, on the
normal and on the exceptional path; the block has an outcome of its own unless one of
the calls made is undefined. -/
def NoLeak {S A : Type} (kind : DescKind) (desc : S → Handle)
    (construct : cudnnStatus_t → Handle → World → Outcome S)
    (call : S → A → World → Outcome Handle) (destruct : S → World → Outcome Unit) : Prop :=
  (∀ (h : Handle) (w : World),
    ∃ self w', construct CUDNN_STATUS_SUCCESS h w = Outcome.returns self w' ∧
      desc self = h ∧ w'.live = (kind, h) :: w.live) ∧
  (∀ (st : cudnnStatus_t) (h : Handle) (w : World), st ≠ CUDNN_STATUS_SUCCESS →
    ∃ w', construct st h w = Outcome.raises (EnforceNotMet.status st) w' ∧
      w'.live = w.live) ∧
  (∀ (self : S) (a : A) (w w' : World),
    (call self a w).world? = some w' → w'.live = w.live) ∧
  (∀ (self : S) (w : World), (kind, desc self) ∈ w.live →
    ∃ w', destruct self w = Outcome.returns () w' ∧
      w'.live = w.live.erase (kind, desc self)) ∧
  (∀ (st : cudnnStatus_t) (h : Handle) (calls : List A) (w w' : World),
    (scopedLifetime (construct st h) call destruct calls w).world? = some w' → w'.live = w.live) ∧
  (∀ (st : cudnnStatus_t) (h : Handle) (calls : List A) (w : World),
    (∀ a ∈ calls, ∀ (self : S) (w₁ : World), (call self a w₁).world? ≠ none) →
    (scopedLifetime (construct st h) call destruct calls w).world? ≠ none)

/-- What it is for an outcome to propagate the status `st` of the vendor call: on
success the operation returns `desc`, otherwise it raises with that status; either way
the live handles are those of `w`. -/
def Propagates (desc : Handle) (st : cudnnStatus_t) (out : Outcome Handle) (w : World) : Prop :=
  (st = CUDNN_STATUS_SUCCESS → ∃ w', out = Outcome.returns desc w' ∧ w'.live = w.live) ∧
  (st ≠ CUDNN_STATUS_SUCCESS →
    ∃ w', out = Outcome.raises (EnforceNotMet.status st) w' ∧ w'.live = w.live)

/-! ## Reading the outcome of an operation that forwards to the vendor -/

/-- The outcome of an operation on world `w` that calls the vendor entry point exactly
once, as the call `c`, and propagates its status `st`: the log grows by `c`, the live
handles are those of `w`, and the operation returns `desc` when the status is success
and raises otherwise. -/
def vendorSetOutcome (desc : Handle) (st : cudnnStatus_t) (c : VendorCall) (w : World) :
    Outcome Handle :=
  if st = CUDNN_STATUS_SUCCESS then
    Outcome.returns desc { live := w.live, calls := w.calls ++ [c] }
  else
    Outcome.raises (EnforceNotMet.status st) { live := w.live, calls := w.calls ++ [c] }

/-- The first half of `ScopedTensorDescriptor.arrays`: the vector `strides` as it stands
after the loop. -/
def ScopedTensorDescriptor.stridesPart (dims : List Int) : Except UB (List Int) := do
  let strides ← vecSet (List.replicate dims.length (0 : Int)) (sizeSub dims.length 1) 1
  ScopedTensorDescriptor.stridesLoop dims (ScopedTensorDescriptor.loopCount dims.length) strides

/-- The second half of `ScopedTensorDescriptor.arrays`: the vector `dims_with_group`. -/
def ScopedTensorDescriptor.dimsPart (dims : List Int) (groups : Int) : Except UB (List Int) :=
  if groups > 1 then do
    let d ← vecGet dims 1
    let q ← divInt32 d groups
    vecSet dims 1 q
  else
    pure dims

theorem PADDLE_ENFORCE_set (desc : Handle) (st : cudnnStatus_t) (c : VendorCall) (w : World) :
    PADDLE_ENFORCE st (cudnnSetDescriptor c w) desc = vendorSetOutcome desc st c w := by
  unfold PADDLE_ENFORCE cudnnSetDescriptor vendorSetOutcome
  rfl

/-! ## `GetCudnnTensorFormat` -/

/-- C2: `GetCudnnTensorFormat` returns `CUDNN_TENSOR_NHWC` for `kNHWC` and
`CUDNN_TENSOR_NCHW` for `kNCHW`, raises exactly for the other layout `kNCHW_VECT_C`,
and on the layouts it accepts distinct layouts give distinct formats. -/
theorem GetCudnnTensorFormat_translates :
    GetCudnnTensorFormat DataLayout.kNHWC = Except.ok cudnnTensorFormat_t.CUDNN_TENSOR_NHWC ∧
    GetCudnnTensorFormat DataLayout.kNCHW = Except.ok cudnnTensorFormat_t.CUDNN_TENSOR_NCHW ∧
    (∀ order : DataLayout,
      (∃ e, GetCudnnTensorFormat order = Except.error e) ↔
        (order ≠ DataLayout.kNHWC ∧ order ≠ DataLayout.kNCHW)) ∧
    (∀ order : DataLayout,
      (∃ e, GetCudnnTensorFormat order = Except.error e) ↔ order = DataLayout.kNCHW_VECT_C) ∧
    (∀ (o₁ o₂ : DataLayout) (f : cudnnTensorFormat_t),
      GetCudnnTensorFormat o₁ = Except.ok f → GetCudnnTensorFormat o₂ = Except.ok f → o₁ = o₂) := by
  refine ⟨rfl, rfl, ?_, ?_, ?_⟩
  · intro order
    cases order <;> simp [GetCudnnTensorFormat]
  · intro order
    cases order <;> simp [GetCudnnTensorFormat]
  · intro o₁ o₂ f h₁ h₂
    cases o₁ <;> cases o₂ <;> simp [GetCudnnTensorFormat] at h₁ h₂ ⊢ <;>
      (subst h₁; exact absurd h₂ (by decide))

/-- C2 at the layout the translation refuses: `kNCHW_VECT_C` raises. -/
theorem GetCudnnTensorFormat_translates_witness :
    ∃ e, GetCudnnTensorFormat DataLayout.kNCHW_VECT_C = Except.error e :=
  (GetCudnnTensorFormat_translates.2.2.2.1 DataLayout.kNCHW_VECT_C).mpr rfl

/-! ## `ScopedFilterDescriptor::descriptor` -/

theorem ScopedFilterDescriptor.arrays_ungrouped (kernel : List Int) (groups : Int)
    (hg : groups ≤ 1) : ScopedFilterDescriptor.arrays kernel groups = Except.ok kernel := by
  have h : ¬ groups > 1 := by omega
  simp [ScopedFilterDescriptor.arrays, h, pure, Except.pure]

theorem ScopedFilterDescriptor.arrays_grouped (m : Int) (rest : List Int) (groups : Int)
    (hg : 1 < groups) :
    ScopedFilterDescriptor.arrays (m :: rest) groups = Except.ok (Int.tdiv m groups :: rest) := by
  have h0 : groups ≠ 0 := by omega
  have h1 : groups ≠ -1 := by omega
  simp [ScopedFilterDescriptor.arrays, hg, vecGet, divInt32, vecSet, h0, h1, bind, Except.bind]

theorem ScopedFilterDescriptor.arrays_grouped_nil (groups : Int) (hg : 1 < groups) :
    ScopedFilterDescriptor.arrays [] groups = Except.error UB.outOfBounds := by
  simp [ScopedFilterDescriptor.arrays, hg, vecGet, bind, Except.bind]

/-- C4: `ScopedFilterDescriptor::descriptor` scales only the output-channel count.  For
a non-empty `kernel` and `groups > 1` the vector passed to `cudnnSetFilterNdDescriptor`
has the length of `kernel`, entry 0 equal to `kernel[0] / groups` (truncating) and every
other entry unchanged; for `groups <= 1` the vector passed is `kernel` itself; the format
and the data type are forwarded unchanged. -/
theorem ScopedFilterDescriptor.descriptor_scales_output_channels
    (self : ScopedFilterDescriptor) (st : cudnnStatus_t) (format : cudnnTensorFormat_t)
    (type : cudnnDataType_t) (kernel : List Int) (groups : Int) (w : World) :
    (1 < groups → kernel ≠ [] →
      ∃ (m : Int) (kernel_with_group : List Int),
        kernel[0]? = some m ∧
        kernel_with_group.length = kernel.length ∧
        kernel_with_group[0]? = some (Int.tdiv m groups) ∧
        (∀ i : Nat, i ≠ 0 → kernel_with_group[i]? = kernel[i]?) ∧
        ScopedFilterDescriptor.descriptor self st format type kernel groups w =
          vendorSetOutcome self.desc_ st
            (VendorCall.setFilterNd self.desc_ type format kernel.length kernel_with_group) w) ∧
    (groups ≤ 1 →
      ScopedFilterDescriptor.descriptor self st format type kernel groups w =
        vendorSetOutcome self.desc_ st
          (VendorCall.setFilterNd self.desc_ type format kernel.length kernel) w) := by
  constructor
  · intro hg hne
    cases kernel with
    | nil => exact absurd rfl hne
    | cons m rest =>
      refine ⟨m, Int.tdiv m groups :: rest, by simp, rfl, by simp, ?_, ?_⟩
      · intro i hi
        cases i with
        | zero => exact absurd rfl hi
        | succ j => simp
      · simp only [ScopedFilterDescriptor.descriptor,
          ScopedFilterDescriptor.arrays_grouped m rest groups hg, PADDLE_ENFORCE_set,
          List.length_cons]
  · intro hg
    simp only [ScopedFilterDescriptor.descriptor,
      ScopedFilterDescriptor.arrays_ungrouped kernel groups hg, PADDLE_ENFORCE_set]

/-- C4 at a concrete filter: `M = 8` output channels in 4 groups are passed as 2 with
the input channels and the window unchanged, and with `groups = 1` the kernel is passed
as it is. -/
theorem ScopedFilterDescriptor.descriptor_scales_output_channels_witness :
    ((1 : Int) < 4 ∧ ([8, 3, 5, 5] : List Int) ≠ [] ∧
      ∃ (m : Int) (kernel_with_group : List Int),
        ([8, 3, 5, 5] : List Int)[0]? = some m ∧
        kernel_with_group.length = ([8, 3, 5, 5] : List Int).length ∧
        kernel_with_group[0]? = some (Int.tdiv m 4) ∧
        (∀ i : Nat, i ≠ 0 → kernel_with_group[i]? = ([8, 3, 5, 5] : List Int)[i]?) ∧
        ScopedFilterDescriptor.descriptor { desc_ := 5 } CUDNN_STATUS_SUCCESS
            cudnnTensorFormat_t.CUDNN_TENSOR_NCHW cudnnDataType_t.CUDNN_DATA_FLOAT
            [8, 3, 5, 5] 4 { live := [(DescKind.filter, 5)], calls := [] } =
          vendorSetOutcome 5 CUDNN_STATUS_SUCCESS
            (VendorCall.setFilterNd 5 cudnnDataType_t.CUDNN_DATA_FLOAT
              cudnnTensorFormat_t.CUDNN_TENSOR_NCHW ([8, 3, 5, 5] : List Int).length
              kernel_with_group)
            { live := [(DescKind.filter, 5)], calls := [] }) ∧
    ((1 : Int) ≤ 1 ∧
      ScopedFilterDescriptor.descriptor { desc_ := 5 } CUDNN_STATUS_SUCCESS
          cudnnTensorFormat_t.CUDNN_TENSOR_NCHW cudnnDataType_t.CUDNN_DATA_FLOAT
          [8, 3, 5, 5] 1 { live := [(DescKind.filter, 5)], calls := [] } =
        vendorSetOutcome 5 CUDNN_STATUS_SUCCESS
          (VendorCall.setFilterNd 5 cudnnDataType_t.CUDNN_DATA_FLOAT
            cudnnTensorFormat_t.CUDNN_TENSOR_NCHW ([8, 3, 5, 5] : List Int).length
            [8, 3, 5, 5])
          { live := [(DescKind.filter, 5)], calls := [] }) ∧
    ScopedFilterDescriptor.descriptor { desc_ := 5 } CUDNN_STATUS_SUCCESS
        cudnnTensorFormat_t.CUDNN_TENSOR_NCHW cudnnDataType_t.CUDNN_DATA_FLOAT
        [8, 3, 5, 5] 4 { live := [(DescKind.filter, 5)], calls := [] } =
      Outcome.returns 5
        { live := [(DescKind.filter, 5)],
          calls := [VendorCall.setFilterNd 5 cudnnDataType_t.CUDNN_DATA_FLOAT
            cudnnTensorFormat_t.CUDNN_TENSOR_NCHW 4 [2, 3, 5, 5]] } :=
  ⟨⟨by decide, by decide,
      (ScopedFilterDescriptor.descriptor_scales_output_channels { desc_ := 5 }
        CUDNN_STATUS_SUCCESS cudnnTensorFormat_t.CUDNN_TENSOR_NCHW
        cudnnDataType_t.CUDNN_DATA_FLOAT [8, 3, 5, 5] 4
        { live := [(DescKind.filter, 5)], calls := [] }).1 (by decide) (by decide)⟩,
    ⟨by decide,
      (ScopedFilterDescriptor.descriptor_scales_output_channels { desc_ := 5 }
        CUDNN_STATUS_SUCCESS cudnnTensorFormat_t.CUDNN_TENSOR_NCHW
        cudnnDataType_t.CUDNN_DATA_FLOAT [8, 3, 5, 5] 1
        { live := [(DescKind.filter, 5)], calls := [] }).2 (by decide)⟩,
    by decide⟩

/-! ## `ScopedPoolingDescriptor::descriptor` -/

/-- C7: `ScopedPoolingDescriptor::descriptor` raises without calling
`cudnnSetPoolingNdDescriptor` when `kernel.size()` differs from `pads.size()` or from
`strides.size()`; otherwise it forwards `kernel`, `pads` and `strides` unchanged with
array length `kernel.size()`, with `CUDNN_PROPAGATE_NAN`, and with the vendor mode
`CUDNN_POOLING_MAX` exactly for `kMaximum` and
`CUDNN_POOLING_AVERAGE_COUNT_EXCLUDE_PADDING` for every other mode. -/
theorem ScopedPoolingDescriptor.descriptor_checks_and_forwards
    (self : ScopedPoolingDescriptor) (st : cudnnStatus_t) (mode : PoolingMode)
    (kernel pads strides : List Int) (w : World) :
    ((kernel.length ≠ pads.length ∨ kernel.length ≠ strides.length) →
      ∃ e, ScopedPoolingDescriptor.descriptor self st mode kernel pads strides w =
        Outcome.raises e w) ∧
    (kernel.length = pads.length → kernel.length = strides.length →
      ∃ vendorMode : cudnnPoolingMode_t,
        (vendorMode = cudnnPoolingMode_t.CUDNN_POOLING_MAX ↔ mode = PoolingMode.kMaximum) ∧
        (mode ≠ PoolingMode.kMaximum →
          vendorMode = cudnnPoolingMode_t.CUDNN_POOLING_AVERAGE_COUNT_EXCLUDE_PADDING) ∧
        (mode = PoolingMode.kAverage →
          vendorMode = cudnnPoolingMode_t.CUDNN_POOLING_AVERAGE_COUNT_EXCLUDE_PADDING) ∧
        ScopedPoolingDescriptor.descriptor self st mode kernel pads strides w =
          vendorSetOutcome self.desc_ st
            (VendorCall.setPoolingNd self.desc_ vendorMode
              cudnnNanPropagation_t.CUDNN_PROPAGATE_NAN kernel.length kernel pads strides) w) := by
  constructor
  · intro h
    unfold ScopedPoolingDescriptor.descriptor
    by_cases h₁ : kernel.length = pads.length
    · have h₂ : kernel.length ≠ strides.length := by
        cases h with
        | inl h => exact absurd h₁ h
        | inr h => exact h
      rw [if_neg (not_not.mpr h₁), if_pos h₂]
      exact ⟨_, rfl⟩
    · rw [if_pos h₁]
      exact ⟨_, rfl⟩
  · intro h₁ h₂
    unfold ScopedPoolingDescriptor.descriptor
    rw [if_neg (not_not.mpr h₁), if_neg (not_not.mpr h₂), PADDLE_ENFORCE_set]
    cases mode with
    | kMaximum =>
      exact ⟨cudnnPoolingMode_t.CUDNN_POOLING_MAX, by simp, by simp, by simp, by simp⟩
    | kAverage =>
      exact ⟨cudnnPoolingMode_t.CUDNN_POOLING_AVERAGE_COUNT_EXCLUDE_PADDING,
        by simp, by simp, by simp, by simp⟩

/-- C7 at a concrete window: a 2x2 average pooling with three pads is refused before the
vendor is called. -/
theorem ScopedPoolingDescriptor.descriptor_checks_and_forwards_witness :
    ∃ e, ScopedPoolingDescriptor.descriptor { desc_ := 9 } CUDNN_STATUS_SUCCESS
        PoolingMode.kAverage [2, 2] [0, 0, 0] [2, 2]
        { live := [(DescKind.pooling, 9)], calls := [] } =
      Outcome.raises e { live := [(DescKind.pooling, 9)], calls := [] } :=
  (ScopedPoolingDescriptor.descriptor_checks_and_forwards { desc_ := 9 } CUDNN_STATUS_SUCCESS
    PoolingMode.kAverage [2, 2] [0, 0, 0] [2, 2]
    { live := [(DescKind.pooling, 9)], calls := [] }).1 (Or.inl (by decide))

/-! ## `ScopedConvolutionDescriptor::descriptor` -/

theorem ScopedConvolutionDescriptor.dilationLoop_ok (dilations : List Int)
    (h : ∀ d ∈ dilations, d = 1) :
    ScopedConvolutionDescriptor.dilationLoop dilations = Except.ok () := by
  induction dilations with
  | nil => rfl
  | cons d rest ih =>
    have hd : d = 1 := h d (List.mem_cons_self d rest)
    have hr : ∀ x ∈ rest, x = 1 := fun x hx => h x (List.mem_cons_of_mem d hx)
    simp [ScopedConvolutionDescriptor.dilationLoop, hd, ih hr]

theorem ScopedConvolutionDescriptor.dilationLoop_error (dilations : List Int)
    (h : ∃ d ∈ dilations, d ≠ 1) :
    ∃ d ∈ dilations, d ≠ 1 ∧
      ScopedConvolutionDescriptor.dilationLoop dilations =
        Except.error (EnforceNotMet.notEqual d 1
          ("Dilations conv is not supported in this cuDNN version")) := by
  induction dilations with
  | nil =>
    obtain ⟨d, hd, _⟩ := h
    exact absurd hd (List.not_mem_nil d)
  | cons x rest ih =>
    by_cases hx : x = 1
    · have hr : ∃ d ∈ rest, d ≠ 1 := by
        obtain ⟨d, hd, hne⟩ := h
        cases List.mem_cons.mp hd with
        | inl heq => exact absurd (heq ▸ hx) hne
        | inr hmem => exact ⟨d, hmem, hne⟩
      obtain ⟨d, hd, hne, heq⟩ := ih hr
      exact ⟨d, List.mem_cons_of_mem x hd, hne, by
        simp [ScopedConvolutionDescriptor.dilationLoop, hx, heq]⟩
    · exact ⟨x, List.mem_cons_self x rest, hx, by
        simp [ScopedConvolutionDescriptor.dilationLoop, hx]⟩

theorem ScopedConvolutionDescriptor.descriptor_of_check_ok (CUDNN_VERSION : Nat)
    (self : ScopedConvolutionDescriptor) (st : cudnnStatus_t) (type : cudnnDataType_t)
    (pads strides dilations : List Int) (w : World)
    (h₁ : pads.length = strides.length) (h₂ : pads.length = dilations.length)
    (hc : ScopedConvolutionDescriptor.dilationCheck CUDNN_VERSION dilations = Except.ok ()) :
    ScopedConvolutionDescriptor.descriptor CUDNN_VERSION self st type pads strides dilations w =
      vendorSetOutcome self.desc_ st
        (VendorCall.setConvolutionNd self.desc_ pads.length pads strides dilations
          cudnnConvolutionMode_t.CUDNN_CROSS_CORRELATION type) w := by
  unfold ScopedConvolutionDescriptor.descriptor
  rw [if_neg (not_not.mpr h₁), if_neg (not_not.mpr h₂), hc, PADDLE_ENFORCE_set]

theorem ScopedConvolutionDescriptor.descriptor_of_check_error (CUDNN_VERSION : Nat)
    (self : ScopedConvolutionDescriptor) (st : cudnnStatus_t) (type : cudnnDataType_t)
    (pads strides dilations : List Int) (w : World) (e : EnforceNotMet)
    (h₁ : pads.length = strides.length) (h₂ : pads.length = dilations.length)
    (hc : ScopedConvolutionDescriptor.dilationCheck CUDNN_VERSION dilations = Except.error e) :
    ScopedConvolutionDescriptor.descriptor CUDNN_VERSION self st type pads strides dilations w =
      Outcome.raises e w := by
  unfold ScopedConvolutionDescriptor.descriptor
  rw [if_neg (not_not.mpr h₁), if_neg (not_not.mpr h₂), hc]

theorem ScopedConvolutionDescriptor.dilationCheck_ok (CUDNN_VERSION : Nat)
    (dilations : List Int) (h : 6000 ≤ CUDNN_VERSION ∨ ∀ d ∈ dilations, d = 1) :
    ScopedConvolutionDescriptor.dilationCheck CUDNN_VERSION dilations = Except.ok () := by
  unfold ScopedConvolutionDescriptor.dilationCheck
  by_cases hv : CUDNN_VERSION < 6000
  · rw [if_pos hv]
    cases h with
    | inl h => omega
    | inr h => exact ScopedConvolutionDescriptor.dilationLoop_ok dilations h
  · rw [if_neg hv]

/-- C6: `ScopedConvolutionDescriptor::descriptor` validates before it forwards.  It raises
without calling `cudnnSetConvolutionNdDescriptor` when `pads.size()` differs from
`strides.size()` or from `dilations.size()`; when the three lengths are equal and the
dilation check passes it calls the vendor entry point exactly once, with array length
`pads.size()`, with `pads`, `strides` and `dilations` unchanged and in that order, with
mode `CUDNN_CROSS_CORRELATION` and with the given data type. -/
theorem ScopedConvolutionDescriptor.descriptor_validates_then_forwards (CUDNN_VERSION : Nat)
    (self : ScopedConvolutionDescriptor) (st : cudnnStatus_t) (type : cudnnDataType_t)
    (pads strides dilations : List Int) (w : World) :
    ((pads.length ≠ strides.length ∨ pads.length ≠ dilations.length) →
      ∃ e, ScopedConvolutionDescriptor.descriptor CUDNN_VERSION self st type pads strides
        dilations w = Outcome.raises e w) ∧
    (pads.length = strides.length → pads.length = dilations.length →
      (6000 ≤ CUDNN_VERSION ∨ ∀ d ∈ dilations, d = 1) →
      ScopedConvolutionDescriptor.descriptor CUDNN_VERSION self st type pads strides
          dilations w =
        vendorSetOutcome self.desc_ st
          (VendorCall.setConvolutionNd self.desc_ pads.length pads strides dilations
            cudnnConvolutionMode_t.CUDNN_CROSS_CORRELATION type) w) := by
  constructor
  · intro h
    unfold ScopedConvolutionDescriptor.descriptor
    by_cases h₁ : pads.length = strides.length
    · have h₂ : pads.length ≠ dilations.length := by
        cases h with
        | inl h => exact absurd h₁ h
        | inr h => exact h
      rw [if_neg (not_not.mpr h₁), if_pos h₂]
      exact ⟨_, rfl⟩
    · rw [if_pos h₁]
      exact ⟨_, rfl⟩
  · intro h₁ h₂ hc
    exact ScopedConvolutionDescriptor.descriptor_of_check_ok CUDNN_VERSION self st type pads
      strides dilations w h₁ h₂
      (ScopedConvolutionDescriptor.dilationCheck_ok CUDNN_VERSION dilations hc)

/-- C6 at a concrete convolution: a 2-d convolution with unit dilations under version 5
is forwarded as it is. -/
theorem ScopedConvolutionDescriptor.descriptor_validates_then_forwards_witness :
    ScopedConvolutionDescriptor.descriptor 5110 { desc_ := 4 } CUDNN_STATUS_SUCCESS
        cudnnDataType_t.CUDNN_DATA_DOUBLE [1, 1] [2, 2] [1, 1]
        { live := [(DescKind.convolution, 4)], calls := [] } =
      vendorSetOutcome 4 CUDNN_STATUS_SUCCESS
        (VendorCall.setConvolutionNd 4 2 [1, 1] [2, 2] [1, 1]
          cudnnConvolutionMode_t.CUDNN_CROSS_CORRELATION cudnnDataType_t.CUDNN_DATA_DOUBLE)
        { live := [(DescKind.convolution, 4)], calls := [] } :=
  (ScopedConvolutionDescriptor.descriptor_validates_then_forwards 5110 { desc_ := 4 }
    CUDNN_STATUS_SUCCESS cudnnDataType_t.CUDNN_DATA_DOUBLE [1, 1] [2, 2] [1, 1]
    { live := [(DescKind.convolution, 4)], calls := [] }).2 rfl rfl (Or.inr (by decide))

/-- C5, as stated, fails: under version 5 a convolution whose dilations are all 1 still
raises when the vendor refuses the call (here a zero stride, status
`CUDNN_STATUS_BAD_PARAM`), so the operation can raise although no entry of `dilations`
differs from 1. -/
theorem ScopedConvolutionDescriptor.descriptor_raises_with_unit_dilations :
    (5999 < 6000 ∧ [0].length = [0].length ∧ [0].length = [1].length) ∧
    ScopedConvolutionDescriptor.descriptor 5999 { desc_ := 7 } CUDNN_STATUS_BAD_PARAM
        cudnnDataType_t.CUDNN_DATA_FLOAT [0] [0] [1]
        { live := [(DescKind.convolution, 7)], calls := [] } =
      Outcome.raises (EnforceNotMet.status CUDNN_STATUS_BAD_PARAM)
        { live := [(DescKind.convolution, 7)],
          calls := [VendorCall.setConvolutionNd 7 1 [0] [0] [1]
            cudnnConvolutionMode_t.CUDNN_CROSS_CORRELATION cudnnDataType_t.CUDNN_DATA_FLOAT] } ∧
    ¬ (∃ d ∈ ([1] : List Int), d ≠ 1) := by
  refine ⟨by decide, ?_, by decide⟩
  decide

/-- C5, amended: with the three vectors of equal length and the version below 6000, the
operation raises the dilation error, before any vendor call, if and only if some entry
of `dilations` differs from 1; when every entry is 1 the call reaches
`cudnnSetConvolutionNdDescriptor` and the operation raises only if the vendor refuses it,
so that when the vendor answers success the operation raises if and only if some entry
differs from 1.  With the version 6000 or above no dilation value makes the check raise
and `dilations` is forwarded to the vendor call unchanged. -/
theorem ScopedConvolutionDescriptor.descriptor_dilation_check (CUDNN_VERSION : Nat)
    (self : ScopedConvolutionDescriptor) (st : cudnnStatus_t) (type : cudnnDataType_t)
    (pads strides dilations : List Int) (w : World)
    (h₁ : pads.length = strides.length) (h₂ : pads.length = dilations.length) :
    (CUDNN_VERSION < 6000 →
      ((∃ d ∈ dilations, d ≠ 1) ↔
        ∃ d, ScopedConvolutionDescriptor.descriptor CUDNN_VERSION self st type pads strides
            dilations w =
          Outcome.raises (EnforceNotMet.notEqual d 1
            ("Dilations conv is not supported in this cuDNN version")) w) ∧
      ((∀ d ∈ dilations, d = 1) →
        ScopedConvolutionDescriptor.descriptor CUDNN_VERSION self st type pads strides
            dilations w =
          vendorSetOutcome self.desc_ st
            (VendorCall.setConvolutionNd self.desc_ pads.length pads strides dilations
              cudnnConvolutionMode_t.CUDNN_CROSS_CORRELATION type) w) ∧
      (st = CUDNN_STATUS_SUCCESS →
        ((ScopedConvolutionDescriptor.descriptor CUDNN_VERSION self st type pads strides
            dilations w).isRaise = true ↔ ∃ d ∈ dilations, d ≠ 1))) ∧
    (6000 ≤ CUDNN_VERSION →
      ScopedConvolutionDescriptor.descriptor CUDNN_VERSION self st type pads strides
          dilations w =
        vendorSetOutcome self.desc_ st
          (VendorCall.setConvolutionNd self.desc_ pads.length pads strides dilations
            cudnnConvolutionMode_t.CUDNN_CROSS_CORRELATION type) w) := by
  have hok : (6000 ≤ CUDNN_VERSION ∨ ∀ d ∈ dilations, d = 1) →
      ScopedConvolutionDescriptor.descriptor CUDNN_VERSION self st type pads strides
          dilations w =
        vendorSetOutcome self.desc_ st
          (VendorCall.setConvolutionNd self.desc_ pads.length pads strides dilations
            cudnnConvolutionMode_t.CUDNN_CROSS_CORRELATION type) w := fun hc =>
    ScopedConvolutionDescriptor.descriptor_of_check_ok CUDNN_VERSION self st type pads
      strides dilations w h₁ h₂
      (ScopedConvolutionDescriptor.dilationCheck_ok CUDNN_VERSION dilations hc)
  have herr : CUDNN_VERSION < 6000 → (∃ d ∈ dilations, d ≠ 1) →
      ∃ d, ScopedConvolutionDescriptor.descriptor CUDNN_VERSION self st type pads strides
          dilations w =
        Outcome.raises (EnforceNotMet.notEqual d 1
          ("Dilations conv is not supported in this cuDNN version")) w := by
    intro hv hex
    obtain ⟨d, _, _, heq⟩ := ScopedConvolutionDescriptor.dilationLoop_error dilations hex
    refine ⟨d, ScopedConvolutionDescriptor.descriptor_of_check_error CUDNN_VERSION self st
      type pads strides dilations w _ h₁ h₂ ?_⟩
    unfold ScopedConvolutionDescriptor.dilationCheck
    rw [if_pos hv, heq]
  refine ⟨fun hv => ⟨⟨herr hv, ?_⟩, fun hall => hok (Or.inr hall), ?_⟩, fun hv => hok (Or.inl hv)⟩
  · rintro ⟨d, hd⟩
    by_contra hno
    have hall : ∀ x ∈ dilations, x = 1 := by
      intro x hx
      by_contra hne
      exact hno ⟨x, hx, hne⟩
    rw [hok (Or.inr hall)] at hd
    unfold vendorSetOutcome at hd
    split at hd <;> simp at hd
  · intro hst
    constructor
    · intro hr
      by_contra hno
      have hall : ∀ x ∈ dilations, x = 1 := by
        intro x hx
        by_contra hne
        exact hno ⟨x, hx, hne⟩
      rw [hok (Or.inr hall)] at hr
      simp [vendorSetOutcome, hst, Outcome.isRaise] at hr
    · intro hex
      obtain ⟨d, hd⟩ := herr hv hex
      rw [hd]
      rfl

/-- C5, amended, at concrete convolutions under version 5: a dilation of 2 is refused
before the vendor is called. -/
theorem ScopedConvolutionDescriptor.descriptor_dilation_check_witness :
    (∃ d ∈ ([1, 2] : List Int), d ≠ 1) ↔
      ∃ d, ScopedConvolutionDescriptor.descriptor 5110 { desc_ := 4 } CUDNN_STATUS_SUCCESS
          cudnnDataType_t.CUDNN_DATA_FLOAT [0, 0] [1, 1] [1, 2]
          { live := [(DescKind.convolution, 4)], calls := [] } =
        Outcome.raises (EnforceNotMet.notEqual d 1
          ("Dilations conv is not supported in this cuDNN version"))
          { live := [(DescKind.convolution, 4)], calls := [] } :=
  ((ScopedConvolutionDescriptor.descriptor_dilation_check 5110 { desc_ := 4 }
    CUDNN_STATUS_SUCCESS cudnnDataType_t.CUDNN_DATA_FLOAT [0, 0] [1, 1] [1, 2]
    { live := [(DescKind.convolution, 4)], calls := [] } rfl rfl).1 (by decide)).1

/-! ## `ScopedTensorDescriptor::descriptor`: the local computation -/

theorem ScopedTensorDescriptor.arrays_eq (dims : List Int) (groups : Int) :
    ScopedTensorDescriptor.arrays dims groups =
      (match ScopedTensorDescriptor.stridesPart dims with
       | Except.error u => Except.error u
       | Except.ok strides =>
         match ScopedTensorDescriptor.dimsPart dims groups with
         | Except.error u => Except.error u
         | Except.ok dims_with_group => Except.ok (dims_with_group, strides)) := by
  unfold ScopedTensorDescriptor.arrays ScopedTensorDescriptor.stridesPart
    ScopedTensorDescriptor.dimsPart
  simp only [bind, Except.bind, pure, Except.pure]
  generalize vecSet (List.replicate dims.length (0 : Int)) (sizeSub dims.length 1) 1 = r₁
  cases r₁ with
  | error u => rfl
  | ok s₀ =>
    simp only []
    generalize ScopedTensorDescriptor.stridesLoop dims
        (ScopedTensorDescriptor.loopCount dims.length) s₀ = r₂
    cases r₂ with
    | error u => rfl
    | ok strides =>
      simp only []
      by_cases hg : groups > 1
      · simp only [hg, if_true]
        generalize vecGet dims 1 = r₃
        cases r₃ with
        | error u => rfl
        | ok d =>
          simp only []
          generalize divInt32 d groups = r₄
          cases r₄ with
          | error u => rfl
          | ok q =>
            simp only []
            generalize vecSet dims 1 q = r₅
            cases r₅ with
            | error u => rfl
            | ok dg => rfl
      · simp only [hg, if_false]

theorem wrapInt32_eq (x : Int) :
    wrapInt32 x = (x + 2147483648) % 4294967296 - 2147483648 := by
  cases x with
  | ofNat n =>
    unfold wrapInt32
    simp only [Int.ofNat_eq_coe, Int.negSucc_eq]
    split_ifs <;> omega
  | negSucc n =>
    unfold wrapInt32
    simp only [Int.ofNat_eq_coe, Int.negSucc_eq]
    split_ifs <;> omega

theorem wrapInt32_of_fits (x : Int) (h : fitsInt32 x) : wrapInt32 x = x := by
  rw [wrapInt32_eq]
  unfold fitsInt32 at h
  omega

theorem ScopedTensorDescriptor.loopCount_lt (size : Nat) (h : 1 ≤ size) :
    ScopedTensorDescriptor.loopCount size + 1 ≤ size := by
  unfold ScopedTensorDescriptor.loopCount sizeToInt sizeSub
  rw [wrapInt32_eq]
  split_ifs <;> omega

theorem ScopedTensorDescriptor.loopCount_small (size : Nat) (h₁ : 1 ≤ size)
    (h₂ : size ≤ 2147483649) : ScopedTensorDescriptor.loopCount size = size - 1 := by
  unfold ScopedTensorDescriptor.loopCount sizeToInt sizeSub
  rw [wrapInt32_eq]
  split_ifs <;> omega

/-- The loop variable starts below `INT_MAX` unless the size is `2^31 + 1` modulo `2^32`. -/
theorem ScopedTensorDescriptor.loopCount_le (size : Nat)
    (h : size % 4294967296 ≠ 2147483649) :
    ScopedTensorDescriptor.loopCount size ≤ 2147483647 := by
  unfold ScopedTensorDescriptor.loopCount sizeToInt sizeSub
  rw [wrapInt32_eq]
  split_ifs <;> omega

/-- The loop variable starts at `INT_MAX` when the size is `2^31 + 1` modulo `2^32`. -/
theorem ScopedTensorDescriptor.loopCount_int_max (size : Nat) (h₁ : 2 ≤ size)
    (h₂ : size % 4294967296 = 2147483649) :
    ScopedTensorDescriptor.loopCount size = 2147483647 + 1 := by
  unfold ScopedTensorDescriptor.loopCount sizeToInt sizeSub
  rw [wrapInt32_eq, if_pos h₁]
  omega

theorem sizeSub_one_lt (size : Nat) (h : 1 ≤ size) : sizeSub size 1 < size := by
  unfold sizeSub
  rw [if_pos h]
  omega

theorem sizeSub_one_eq (size : Nat) (h : 1 ≤ size) : sizeSub size 1 = size - 1 := by
  unfold sizeSub
  rw [if_pos h]

theorem vecGet_of_lt (xs : List Int) (i : Nat) (h : i < xs.length) :
    vecGet xs i = Except.ok xs[i] := by
  unfold vecGet
  rw [List.getElem?_eq_getElem h]

theorem vecGet_of_le (xs : List Int) (i : Nat) (h : xs.length ≤ i) :
    vecGet xs i = Except.error UB.outOfBounds := by
  unfold vecGet
  rw [List.getElem?_eq_none h]

theorem vecSet_of_lt (xs : List Int) (i : Nat) (v : Int) (h : i < xs.length) :
    vecSet xs i v = Except.ok (xs.set i v) := by
  unfold vecSet
  rw [if_pos h]

theorem vecGet_error (xs : List Int) (i : Nat) (u : UB)
    (h : vecGet xs i = Except.error u) : u = UB.outOfBounds := by
  unfold vecGet at h
  split at h
  · cases h
  · cases h
    rfl

theorem vecSet_error (xs : List Int) (i : Nat) (v : Int) (u : UB)
    (h : vecSet xs i v = Except.error u) : u = UB.outOfBounds := by
  unfold vecSet at h
  split at h
  · cases h
  · cases h
    rfl

/-- Below `INT_MAX` the `int` sum `i + 1` does not wrap and indexes entry `i + 1`. -/
theorem intToSize_addInt32 (i : Nat) (hi : i < 2147483647) :
    intToSize (addInt32 (i : Int) 1) = i + 1 := by
  have h : addInt32 (i : Int) 1 = ((i + 1 : Nat) : Int) := by
    unfold addInt32
    rw [wrapInt32_eq]
    push_cast
    omega
  rw [h]
  rfl

/-- At `INT_MAX` the `int` sum `i + 1` wraps to `-2^31`, which as a `size_t` is
`2^64 - 2^31`. -/
theorem intToSize_addInt32_int_max (i : Nat) (hi : i = 2147483647) :
    intToSize (addInt32 (i : Int) 1) = 18446744071562067968 := by
  have h : addInt32 (i : Int) 1 = -2147483648 := by
    unfold addInt32
    rw [wrapInt32_eq]
    omega
  rw [h]
  rfl

theorem ScopedTensorDescriptor.stridesLoop_step (dims strides : List Int) (i : Nat)
    (hd : i + 1 < dims.length) (hs : i + 1 < strides.length) (hi : i < 2147483647) :
    ScopedTensorDescriptor.stridesLoop dims (i + 1) strides =
      ScopedTensorDescriptor.stridesLoop dims i
        (strides.set i (mulInt32 dims[i + 1] strides[i + 1])) := by
  have hlt : i < strides.length := by omega
  rw [ScopedTensorDescriptor.stridesLoop]
  simp only [intToSize_addInt32 i hi, vecGet_of_lt dims (i + 1) hd,
    vecGet_of_lt strides (i + 1) hs, vecSet_of_lt strides i _ hlt, bind, Except.bind]

/-- The first iteration of a loop that starts at `INT_MAX` reads `dims` out of bounds. -/
theorem ScopedTensorDescriptor.stridesLoop_int_max (dims strides : List Int) (i : Nat)
    (hi : i = 2147483647) (hlen : dims.length ≤ 18446744071562067968) :
    ScopedTensorDescriptor.stridesLoop dims (i + 1) strides =
      Except.error UB.outOfBounds := by
  rw [ScopedTensorDescriptor.stridesLoop]
  simp only [intToSize_addInt32_int_max i hi, vecGet_of_le dims _ hlen, bind, Except.bind]

/-- The loop stays inside both vectors whenever it starts below their common length and
below `INT_MAX`. -/
theorem ScopedTensorDescriptor.stridesLoop_total (dims : List Int) :
    ∀ (k : Nat) (strides : List Int), strides.length = dims.length → k + 1 ≤ dims.length →
      k ≤ 2147483647 →
      ∃ s, ScopedTensorDescriptor.stridesLoop dims k strides = Except.ok s ∧
        s.length = dims.length := by
  intro k
  induction k with
  | zero =>
    intro strides hlen _ _
    exact ⟨strides, rfl, hlen⟩
  | succ i ih =>
    intro strides hlen hk hmax
    rw [ScopedTensorDescriptor.stridesLoop_step dims strides i (by omega) (by omega)
      (by omega)]
    exact ih _ (by rw [List.length_set]; exact hlen) (by omega) (by omega)

/-- The loop fails only by leaving a vector. -/
theorem ScopedTensorDescriptor.stridesLoop_error (dims : List Int) :
    ∀ (k : Nat) (strides : List Int) (u : UB),
      ScopedTensorDescriptor.stridesLoop dims k strides = Except.error u →
      u = UB.outOfBounds := by
  intro k
  induction k with
  | zero =>
    intro strides u h
    rw [ScopedTensorDescriptor.stridesLoop] at h
    cases h
  | succ i ih =>
    intro strides u h
    rw [ScopedTensorDescriptor.stridesLoop] at h
    generalize intToSize (addInt32 (i : Int) 1) = j at h
    cases h₁ : vecGet dims j with
    | error e =>
      rw [h₁] at h
      simp only [bind, Except.bind] at h
      cases h
      exact vecGet_error _ _ _ h₁
    | ok d =>
      rw [h₁] at h
      simp only [bind, Except.bind] at h
      cases h₂ : vecGet strides j with
      | error e =>
        rw [h₂] at h
        simp only [] at h
        cases h
        exact vecGet_error _ _ _ h₂
      | ok v =>
        rw [h₂] at h
        simp only [] at h
        cases h₃ : vecSet strides i (mulInt32 d v) with
        | error e =>
          rw [h₃] at h
          simp only [] at h
          cases h
          exact vecSet_error _ _ _ _ h₃
        | ok strides' =>
          rw [h₃] at h
          simp only [] at h
          exact ih strides' u h

theorem ScopedTensorDescriptor.stridesPart_total (dims : List Int) (h : dims ≠ [])
    (hmod : dims.length % 4294967296 ≠ 2147483649) :
    ∃ s, ScopedTensorDescriptor.stridesPart dims = Except.ok s ∧ s.length = dims.length := by
  have hpos : 1 ≤ dims.length := by
    cases dims with
    | nil => exact absurd rfl h
    | cons _ _ => simp
  unfold ScopedTensorDescriptor.stridesPart
  rw [vecSet_of_lt _ _ _ (by rw [List.length_replicate]; exact sizeSub_one_lt _ hpos)]
  simp only [bind, Except.bind]
  exact ScopedTensorDescriptor.stridesLoop_total dims _ _
    (by rw [List.length_set, List.length_replicate])
    (ScopedTensorDescriptor.loopCount_lt _ hpos)
    (ScopedTensorDescriptor.loopCount_le _ hmod)

theorem ScopedTensorDescriptor.stridesPart_nil :
    ScopedTensorDescriptor.stridesPart [] = Except.error UB.outOfBounds := by
  rfl

/-- A vector of `2^31 + 1` entries modulo `2^32` is read out of bounds by the first
iteration of the loop. -/
theorem ScopedTensorDescriptor.stridesPart_int_max (dims : List Int)
    (h₁ : 2 ≤ dims.length) (h₂ : dims.length % 4294967296 = 2147483649)
    (h₃ : dims.length < 9223372036854775808) :
    ScopedTensorDescriptor.stridesPart dims = Except.error UB.outOfBounds := by
  unfold ScopedTensorDescriptor.stridesPart
  rw [vecSet_of_lt _ _ _ (by rw [List.length_replicate]; exact sizeSub_one_lt _ (by omega)),
    ScopedTensorDescriptor.loopCount_int_max _ h₁ h₂]
  simp only [bind, Except.bind]
  exact ScopedTensorDescriptor.stridesLoop_int_max dims _ 2147483647 rfl (by omega)

theorem ScopedTensorDescriptor.stridesPart_error (dims : List Int) (u : UB)
    (h : ScopedTensorDescriptor.stridesPart dims = Except.error u) : u = UB.outOfBounds := by
  unfold ScopedTensorDescriptor.stridesPart at h
  cases h₁ : vecSet (List.replicate dims.length (0 : Int)) (sizeSub dims.length 1) 1 with
  | error e =>
    rw [h₁] at h
    simp only [bind, Except.bind] at h
    cases h
    exact vecSet_error _ _ _ _ h₁
  | ok s₀ =>
    rw [h₁] at h
    simp only [bind, Except.bind] at h
    exact ScopedTensorDescriptor.stridesLoop_error dims _ s₀ u h

theorem ScopedTensorDescriptor.dimsPart_ungrouped (dims : List Int) (groups : Int)
    (hg : groups ≤ 1) : ScopedTensorDescriptor.dimsPart dims groups = Except.ok dims := by
  have h : ¬ groups > 1 := by omega
  unfold ScopedTensorDescriptor.dimsPart
  rw [if_neg h]
  rfl

theorem ScopedTensorDescriptor.dimsPart_grouped (n c : Int) (rest : List Int) (groups : Int)
    (hg : 1 < groups) :
    ScopedTensorDescriptor.dimsPart (n :: c :: rest) groups =
      Except.ok (n :: Int.tdiv c groups :: rest) := by
  have h0 : groups ≠ 0 := by omega
  have h1 : groups ≠ -1 := by omega
  simp [ScopedTensorDescriptor.dimsPart, hg, vecGet, divInt32, vecSet, h0, h1, bind,
    Except.bind]

theorem ScopedTensorDescriptor.dimsPart_grouped_short (dims : List Int) (groups : Int)
    (hg : 1 < groups) (hlen : dims.length ≤ 1) :
    ScopedTensorDescriptor.dimsPart dims groups = Except.error UB.outOfBounds := by
  unfold ScopedTensorDescriptor.dimsPart
  rw [if_pos hg, vecGet_of_le dims 1 hlen]
  rfl

/-- The group division fails only by leaving the vector: the divisor is above 1. -/
theorem ScopedTensorDescriptor.dimsPart_error (dims : List Int) (groups : Int) (u : UB)
    (h : ScopedTensorDescriptor.dimsPart dims groups = Except.error u) :
    u = UB.outOfBounds := by
  by_cases hg : 1 < groups
  · by_cases hlen : dims.length ≤ 1
    · rw [ScopedTensorDescriptor.dimsPart_grouped_short dims groups hg hlen] at h
      cases h
      rfl
    · cases dims with
      | nil => exact absurd (Nat.zero_le 1) hlen
      | cons n tail =>
        cases tail with
        | nil => exact absurd (Nat.le_refl 1) hlen
        | cons c rest =>
          rw [ScopedTensorDescriptor.dimsPart_grouped n c rest groups hg] at h
          cases h
  · rw [ScopedTensorDescriptor.dimsPart_ungrouped dims groups (by omega)] at h
    cases h

/-! ## `ScopedTensorDescriptor::descriptor`: from the local computation to the vendor call -/

theorem ScopedTensorDescriptor.descriptor_of_parts (self : ScopedTensorDescriptor)
    (st : cudnnStatus_t) (format : cudnnTensorFormat_t) (type : cudnnDataType_t)
    (dims : List Int) (groups : Int) (w : World) (strides dims_with_group : List Int)
    (hs : ScopedTensorDescriptor.stridesPart dims = Except.ok strides)
    (hd : ScopedTensorDescriptor.dimsPart dims groups = Except.ok dims_with_group) :
    ScopedTensorDescriptor.descriptor self st format type dims groups w =
      vendorSetOutcome self.desc_ st
        (VendorCall.setTensorNd self.desc_ type dims_with_group.length dims_with_group
          strides) w := by
  unfold ScopedTensorDescriptor.descriptor
  rw [ScopedTensorDescriptor.arrays_eq, hs, hd]
  exact PADDLE_ENFORCE_set _ _ _ _

theorem ScopedTensorDescriptor.descriptor_of_strides_error (self : ScopedTensorDescriptor)
    (st : cudnnStatus_t) (format : cudnnTensorFormat_t) (type : cudnnDataType_t)
    (dims : List Int) (groups : Int) (w : World) (u : UB)
    (hs : ScopedTensorDescriptor.stridesPart dims = Except.error u) :
    ScopedTensorDescriptor.descriptor self st format type dims groups w =
      Outcome.undefined u := by
  unfold ScopedTensorDescriptor.descriptor
  rw [ScopedTensorDescriptor.arrays_eq, hs]

theorem ScopedTensorDescriptor.descriptor_of_dims_error (self : ScopedTensorDescriptor)
    (st : cudnnStatus_t) (format : cudnnTensorFormat_t) (type : cudnnDataType_t)
    (dims : List Int) (groups : Int) (w : World) (strides : List Int) (u : UB)
    (hs : ScopedTensorDescriptor.stridesPart dims = Except.ok strides)
    (hd : ScopedTensorDescriptor.dimsPart dims groups = Except.error u) :
    ScopedTensorDescriptor.descriptor self st format type dims groups w =
      Outcome.undefined u := by
  unfold ScopedTensorDescriptor.descriptor
  rw [ScopedTensorDescriptor.arrays_eq, hs, hd]

theorem vendorSetOutcome_ne_undefined (desc : Handle) (st : cudnnStatus_t) (c : VendorCall)
    (w : World) (u : UB) : vendorSetOutcome desc st c w ≠ Outcome.undefined u := by
  unfold vendorSetOutcome
  split <;> simp

/-- Under the length precondition both halves of the local computation succeed and the
operation reaches the vendor call. -/
theorem ScopedTensorDescriptor.tensor_descriptor_defined (self : ScopedTensorDescriptor)
    (st : cudnnStatus_t) (format : cudnnTensorFormat_t) (type : cudnnDataType_t)
    (dims : List Int) (groups : Int) (w : World)
    (hsafe : (2 ≤ dims.length ∧ dims.length % 4294967296 ≠ 2147483649) ∨
      (dims.length = 1 ∧ groups ≤ 1)) :
    ∃ dims_with_group strides : List Int,
      ScopedTensorDescriptor.stridesPart dims = Except.ok strides ∧
      ScopedTensorDescriptor.dimsPart dims groups = Except.ok dims_with_group ∧
      dims_with_group.length = dims.length ∧
      ScopedTensorDescriptor.descriptor self st format type dims groups w =
        vendorSetOutcome self.desc_ st
          (VendorCall.setTensorNd self.desc_ type dims.length dims_with_group strides) w := by
  have hne : dims ≠ [] := by
    intro h
    rw [h] at hsafe
    simp at hsafe
  have hmod : dims.length % 4294967296 ≠ 2147483649 := by
    cases hsafe with
    | inl h => exact h.2
    | inr h => omega
  obtain ⟨strides, hs, _⟩ := ScopedTensorDescriptor.stridesPart_total dims hne hmod
  by_cases hg : 1 < groups
  · have hlen : 2 ≤ dims.length := by
      cases hsafe with
      | inl h => exact h.1
      | inr h => omega
    match dims, hlen, hs with
    | n :: c :: rest, _, hs =>
      have hd := ScopedTensorDescriptor.dimsPart_grouped n c rest groups hg
      exact ⟨n :: Int.tdiv c groups :: rest, strides, hs, hd, rfl,
        ScopedTensorDescriptor.descriptor_of_parts self st format type _ groups w
          strides _ hs hd⟩
  · have hd := ScopedTensorDescriptor.dimsPart_ungrouped dims groups (by omega)
    exact ⟨dims, strides, hs, hd, rfl,
      ScopedTensorDescriptor.descriptor_of_parts self st format type dims groups w
        strides dims hs hd⟩

/-- Outside the length precondition a vector is left before any vendor call. -/
theorem ScopedTensorDescriptor.tensor_descriptor_undefined (self : ScopedTensorDescriptor)
    (st : cudnnStatus_t) (format : cudnnTensorFormat_t) (type : cudnnDataType_t)
    (dims : List Int) (groups : Int) (w : World)
    (hsize : dims.length < 9223372036854775808)
    (hout : ¬ ((2 ≤ dims.length ∧ dims.length % 4294967296 ≠ 2147483649) ∨
      (dims.length = 1 ∧ groups ≤ 1))) :
    ScopedTensorDescriptor.descriptor self st format type dims groups w =
      Outcome.undefined UB.outOfBounds := by
  by_cases h₂ : 2 ≤ dims.length
  · have hmod : dims.length % 4294967296 = 2147483649 := by
      by_contra hc
      exact hout (Or.inl ⟨h₂, hc⟩)
    exact ScopedTensorDescriptor.descriptor_of_strides_error self st format type dims groups w
      _ (ScopedTensorDescriptor.stridesPart_int_max dims h₂ hmod hsize)
  · cases dims with
    | nil =>
      exact ScopedTensorDescriptor.descriptor_of_strides_error self st format type []
        groups w _ ScopedTensorDescriptor.stridesPart_nil
    | cons n rest =>
      have hlen : (n :: rest).length = 1 := by
        simp only [List.length_cons] at h₂ ⊢
        omega
      have hg : 1 < groups := by
        by_contra hc
        exact hout (Or.inr ⟨hlen, by omega⟩)
      obtain ⟨strides, hs, _⟩ :=
        ScopedTensorDescriptor.stridesPart_total (n :: rest) (by simp) (by omega)
      exact ScopedTensorDescriptor.descriptor_of_dims_error self st format type _ groups w
        strides _ hs
        (ScopedTensorDescriptor.dimsPart_grouped_short _ groups hg (by omega))

/-- The operation never divides by zero: it divides only by `groups > 1`. -/
theorem ScopedTensorDescriptor.tensor_descriptor_no_division_by_zero
    (self : ScopedTensorDescriptor) (st : cudnnStatus_t) (format : cudnnTensorFormat_t)
    (type : cudnnDataType_t) (dims : List Int) (groups : Int) (w : World) :
    ScopedTensorDescriptor.descriptor self st format type dims groups w ≠
      Outcome.undefined UB.divByZero := by
  cases hs : ScopedTensorDescriptor.stridesPart dims with
  | error u =>
    rw [ScopedTensorDescriptor.descriptor_of_strides_error self st format type dims groups w
      u hs, ScopedTensorDescriptor.stridesPart_error dims u hs]
    simp
  | ok strides =>
    cases hd : ScopedTensorDescriptor.dimsPart dims groups with
    | error u =>
      rw [ScopedTensorDescriptor.descriptor_of_dims_error self st format type dims groups w
        strides u hs hd, ScopedTensorDescriptor.dimsPart_error dims groups u hd]
      simp
    | ok dg =>
      rw [ScopedTensorDescriptor.descriptor_of_parts self st format type dims groups w
        strides dg hs hd]
      exact vendorSetOutcome_ne_undefined _ _ _ _ _

/-- A vector of ones of `2^31 + 1` entries modulo `2^32`: `int i = dims.size() - 2` is
`INT_MAX`, the index `i + 1` wraps to `-2^31`, and `dims[i + 1]` is out of bounds. -/
theorem ScopedTensorDescriptor.tensor_descriptor_of_ones_int_max (size : Nat)
    (h₁ : 2 ≤ size) (h₂ : size % 4294967296 = 2147483649)
    (h₃ : size < 9223372036854775808) (self : ScopedTensorDescriptor) (st : cudnnStatus_t)
    (format : cudnnTensorFormat_t) (type : cudnnDataType_t) (groups : Int) (w : World) :
    2 ≤ (List.replicate size (1 : Int)).length ∧
    ScopedTensorDescriptor.descriptor self st format type (List.replicate size 1) groups w =
      Outcome.undefined UB.outOfBounds := by
  have hlen : (List.replicate size (1 : Int)).length = size := List.length_replicate _ _
  refine ⟨by rw [hlen]; exact h₁, ?_⟩
  exact ScopedTensorDescriptor.descriptor_of_strides_error self st format type _ groups w _
    (ScopedTensorDescriptor.stridesPart_int_max _ (by rw [hlen]; exact h₁)
      (by rw [hlen]; exact h₂) (by rw [hlen]; exact h₃))

/-- C3, as stated, fails for a vector whose length puts the `int` loop variable at
`INT_MAX`: `dims` of `2^31 + 1` ones has at least two entries and `groups = 2 > 1`, yet
the index `i + 1` of the stride loop wraps, `dims[i + 1]` is out of bounds, and no
dimension vector reaches `cudnnSetTensorNdDescriptor`. -/
theorem ScopedTensorDescriptor.descriptor_grouped_without_vendor_call :
    (2 ≤ (List.replicate 2147483649 (1 : Int)).length ∧ (1 : Int) < 2) ∧
    ScopedTensorDescriptor.descriptor { desc_ := 3 } CUDNN_STATUS_SUCCESS
        cudnnTensorFormat_t.CUDNN_TENSOR_NCHW cudnnDataType_t.CUDNN_DATA_FLOAT
        (List.replicate 2147483649 1) 2 { live := [(DescKind.tensor, 3)], calls := [] } =
      Outcome.undefined UB.outOfBounds :=
  ⟨⟨(ScopedTensorDescriptor.tensor_descriptor_of_ones_int_max 2147483649 (by decide)
      (by decide) (by decide) { desc_ := 3 } CUDNN_STATUS_SUCCESS
      cudnnTensorFormat_t.CUDNN_TENSOR_NCHW cudnnDataType_t.CUDNN_DATA_FLOAT 2
      { live := [(DescKind.tensor, 3)], calls := [] }).1, by decide⟩,
    (ScopedTensorDescriptor.tensor_descriptor_of_ones_int_max 2147483649 (by decide)
      (by decide) (by decide) { desc_ := 3 } CUDNN_STATUS_SUCCESS
      cudnnTensorFormat_t.CUDNN_TENSOR_NCHW cudnnDataType_t.CUDNN_DATA_FLOAT 2
      { live := [(DescKind.tensor, 3)], calls := [] }).2⟩

/-- C3, amended: the grouped-convolution adjustment of
`ScopedTensorDescriptor::descriptor`, for `dims` whose number of entries is not
`2^31 + 1` modulo `2^32` (so for every `dims` of up to `2^31` entries).  For such `dims`
with at least two entries and `groups > 1` the dimension vector passed to
`cudnnSetTensorNdDescriptor` has the length of `dims`, entry 1 equal to
`dims[1] / groups` (truncating) and every other entry equal to that of `dims`; for such
non-empty `dims` and `groups <= 1` the dimension vector passed is `dims` itself. -/
theorem ScopedTensorDescriptor.descriptor_divides_channels_by_groups
    (self : ScopedTensorDescriptor) (st : cudnnStatus_t) (format : cudnnTensorFormat_t)
    (type : cudnnDataType_t) (dims : List Int) (groups : Int) (w : World)
    (hmod : dims.length % 4294967296 ≠ 2147483649) :
    (2 ≤ dims.length → 1 < groups →
      ∃ (c : Int) (dims_with_group strides : List Int),
        dims[1]? = some c ∧
        dims_with_group.length = dims.length ∧
        dims_with_group[1]? = some (Int.tdiv c groups) ∧
        (∀ i : Nat, i ≠ 1 → dims_with_group[i]? = dims[i]?) ∧
        ScopedTensorDescriptor.descriptor self st format type dims groups w =
          vendorSetOutcome self.desc_ st
            (VendorCall.setTensorNd self.desc_ type dims.length dims_with_group strides) w) ∧
    (dims ≠ [] → groups ≤ 1 →
      ∃ strides : List Int,
        ScopedTensorDescriptor.descriptor self st format type dims groups w =
          vendorSetOutcome self.desc_ st
            (VendorCall.setTensorNd self.desc_ type dims.length dims strides) w) := by
  constructor
  · intro hlen hg
    match dims, hlen, hmod with
    | n :: c :: rest, _, hmod =>
      obtain ⟨strides, hs, _⟩ :=
        ScopedTensorDescriptor.stridesPart_total (n :: c :: rest) (by simp) hmod
      refine ⟨c, n :: Int.tdiv c groups :: rest, strides, by simp, rfl, by simp, ?_, ?_⟩
      · intro i hi
        match i, hi with
        | 0, _ => simp
        | j + 2, _ => simp
      · exact ScopedTensorDescriptor.descriptor_of_parts self st format type _ groups w
          strides _ hs (ScopedTensorDescriptor.dimsPart_grouped n c rest groups hg)
  · intro hne hg
    obtain ⟨strides, hs, _⟩ := ScopedTensorDescriptor.stridesPart_total dims hne hmod
    exact ⟨strides, ScopedTensorDescriptor.descriptor_of_parts self st format type dims
      groups w strides dims hs (ScopedTensorDescriptor.dimsPart_ungrouped dims groups hg)⟩

/-- C3, amended, at a concrete tensor: 8 channels in 4 groups are passed as 2 channels,
and the other three dimensions are passed as they are. -/
theorem ScopedTensorDescriptor.descriptor_divides_channels_by_groups_witness :
    (([2, 8, 5, 5] : List Int).length % 4294967296 ≠ 2147483649 ∧
      2 ≤ ([2, 8, 5, 5] : List Int).length ∧ (1 : Int) < 4) ∧
    (∃ (c : Int) (dims_with_group strides : List Int),
      ([2, 8, 5, 5] : List Int)[1]? = some c ∧
      dims_with_group.length = ([2, 8, 5, 5] : List Int).length ∧
      dims_with_group[1]? = some (Int.tdiv c 4) ∧
      (∀ i : Nat, i ≠ 1 → dims_with_group[i]? = ([2, 8, 5, 5] : List Int)[i]?) ∧
      ScopedTensorDescriptor.descriptor { desc_ := 3 } CUDNN_STATUS_SUCCESS
          cudnnTensorFormat_t.CUDNN_TENSOR_NCHW cudnnDataType_t.CUDNN_DATA_FLOAT
          [2, 8, 5, 5] 4 { live := [(DescKind.tensor, 3)], calls := [] } =
        vendorSetOutcome 3 CUDNN_STATUS_SUCCESS
          (VendorCall.setTensorNd 3 cudnnDataType_t.CUDNN_DATA_FLOAT
            ([2, 8, 5, 5] : List Int).length dims_with_group strides)
          { live := [(DescKind.tensor, 3)], calls := [] }) ∧
    ScopedTensorDescriptor.descriptor { desc_ := 3 } CUDNN_STATUS_SUCCESS
        cudnnTensorFormat_t.CUDNN_TENSOR_NCHW cudnnDataType_t.CUDNN_DATA_FLOAT
        [2, 8, 5, 5] 4 { live := [(DescKind.tensor, 3)], calls := [] } =
      Outcome.returns 3
        { live := [(DescKind.tensor, 3)],
          calls := [VendorCall.setTensorNd 3 cudnnDataType_t.CUDNN_DATA_FLOAT 4
            [2, 2, 5, 5] [200, 25, 5, 1]] } :=
  ⟨⟨by decide, by decide, by decide⟩,
    (ScopedTensorDescriptor.descriptor_divides_channels_by_groups { desc_ := 3 }
      CUDNN_STATUS_SUCCESS cudnnTensorFormat_t.CUDNN_TENSOR_NCHW
      cudnnDataType_t.CUDNN_DATA_FLOAT [2, 8, 5, 5] 4
      { live := [(DescKind.tensor, 3)], calls := [] } (by decide)).1 (by decide)
      (by decide),
    by decide⟩

/-- C10, as stated, fails for a vector whose length puts the `int` loop variable at
`INT_MAX`: `dims` of `2^31 + 1` ones has at least two entries, yet `int i` starts at
`2^31 - 1`, the index `i + 1` wraps to `-2^31`, and `dims[i + 1]` is out of bounds. -/
theorem ScopedTensorDescriptor.descriptor_index_out_of_bounds_at_int_max :
    2 ≤ (List.replicate 2147483649 (1 : Int)).length ∧
    ScopedTensorDescriptor.descriptor { desc_ := 5 } CUDNN_STATUS_SUCCESS
        cudnnTensorFormat_t.CUDNN_TENSOR_NHWC cudnnDataType_t.CUDNN_DATA_DOUBLE
        (List.replicate 2147483649 1) 1 { live := [(DescKind.tensor, 5)], calls := [] } =
      Outcome.undefined UB.outOfBounds :=
  ScopedTensorDescriptor.tensor_descriptor_of_ones_int_max 2147483649 (by decide)
    (by decide) (by decide) { desc_ := 5 } CUDNN_STATUS_SUCCESS
    cudnnTensorFormat_t.CUDNN_TENSOR_NHWC cudnnDataType_t.CUDNN_DATA_DOUBLE 1
    { live := [(DescKind.tensor, 5)], calls := [] }

/-- C10, amended: `ScopedTensorDescriptor::descriptor` is safe exactly under a length
precondition it does not check.  For `dims` with at least two entries, their number
not `2^31 + 1` modulo `2^32` (so for 2 up to `2^31` entries), and any `groups`, and for
`dims` with one entry when `groups <= 1`, every vector index used is in bounds (the
outcome is never undefined); for every other `dims` (of fewer than `2^63` entries, as
any vector has) and `groups` an index is out of bounds; and for no `dims` and no
`groups`, zero and negative values included, is `dims[1] / groups` a division by zero. -/
theorem ScopedTensorDescriptor.descriptor_safe_iff (self : ScopedTensorDescriptor)
    (st : cudnnStatus_t) (format : cudnnTensorFormat_t) (type : cudnnDataType_t)
    (dims : List Int) (groups : Int) (w : World) :
    (((2 ≤ dims.length ∧ dims.length % 4294967296 ≠ 2147483649) ∨
        (dims.length = 1 ∧ groups ≤ 1)) →
      ∀ u, ScopedTensorDescriptor.descriptor self st format type dims groups w ≠
        Outcome.undefined u) ∧
    (dims.length < 9223372036854775808 →
      ¬ ((2 ≤ dims.length ∧ dims.length % 4294967296 ≠ 2147483649) ∨
        (dims.length = 1 ∧ groups ≤ 1)) →
      ScopedTensorDescriptor.descriptor self st format type dims groups w =
        Outcome.undefined UB.outOfBounds) ∧
    (dims.length < 9223372036854775808 →
      (((2 ≤ dims.length ∧ dims.length % 4294967296 ≠ 2147483649) ∨
          (dims.length = 1 ∧ groups ≤ 1)) ↔
        ∀ u, ScopedTensorDescriptor.descriptor self st format type dims groups w ≠
          Outcome.undefined u)) ∧
    ScopedTensorDescriptor.descriptor self st format type dims groups w ≠
      Outcome.undefined UB.divByZero := by
  have hsafe : ((2 ≤ dims.length ∧ dims.length % 4294967296 ≠ 2147483649) ∨
        (dims.length = 1 ∧ groups ≤ 1)) →
      ∀ u, ScopedTensorDescriptor.descriptor self st format type dims groups w ≠
        Outcome.undefined u := by
    intro h u
    obtain ⟨dg, strides, _, _, _, heq⟩ :=
      ScopedTensorDescriptor.tensor_descriptor_defined self st format type dims groups w h
    rw [heq]
    exact vendorSetOutcome_ne_undefined _ _ _ _ u
  have hout := ScopedTensorDescriptor.tensor_descriptor_undefined self st format type
    dims groups w
  refine ⟨hsafe, hout, fun hsize => ⟨hsafe, fun hdef => ?_⟩,
    ScopedTensorDescriptor.tensor_descriptor_no_division_by_zero self st format type dims
      groups w⟩
  by_contra hc
  exact hdef UB.outOfBounds (hout hsize hc)

/-- C10, amended, at concrete tensors: a four-entry `dims` with `groups = 0` is within
the precondition and the operation neither leaves a vector nor divides by zero; a
one-entry `dims` in 2 groups is outside it and `dims_with_group[1]` is out of bounds. -/
theorem ScopedTensorDescriptor.descriptor_safe_iff_witness :
    ((2 ≤ ([2, 8, 5, 5] : List Int).length ∧
        ([2, 8, 5, 5] : List Int).length % 4294967296 ≠ 2147483649) ∨
      (([2, 8, 5, 5] : List Int).length = 1 ∧ (0 : Int) ≤ 1)) ∧
    ScopedTensorDescriptor.descriptor { desc_ := 3 } CUDNN_STATUS_SUCCESS
        cudnnTensorFormat_t.CUDNN_TENSOR_NCHW cudnnDataType_t.CUDNN_DATA_FLOAT [2, 8, 5, 5] 0
        { live := [(DescKind.tensor, 3)], calls := [] } ≠
      Outcome.undefined UB.outOfBounds ∧
    ScopedTensorDescriptor.descriptor { desc_ := 3 } CUDNN_STATUS_SUCCESS
        cudnnTensorFormat_t.CUDNN_TENSOR_NCHW cudnnDataType_t.CUDNN_DATA_FLOAT [2, 8, 5, 5] 0
        { live := [(DescKind.tensor, 3)], calls := [] } ≠
      Outcome.undefined UB.divByZero ∧
    ScopedTensorDescriptor.descriptor { desc_ := 3 } CUDNN_STATUS_SUCCESS
        cudnnTensorFormat_t.CUDNN_TENSOR_NCHW cudnnDataType_t.CUDNN_DATA_FLOAT [7] 2
        { live := [(DescKind.tensor, 3)], calls := [] } =
      Outcome.undefined UB.outOfBounds :=
  ⟨Or.inl ⟨by decide, by decide⟩,
    (ScopedTensorDescriptor.descriptor_safe_iff { desc_ := 3 } CUDNN_STATUS_SUCCESS
      cudnnTensorFormat_t.CUDNN_TENSOR_NCHW cudnnDataType_t.CUDNN_DATA_FLOAT [2, 8, 5, 5] 0
      { live := [(DescKind.tensor, 3)], calls := [] }).1 (Or.inl ⟨by decide, by decide⟩)
      UB.outOfBounds,
    (ScopedTensorDescriptor.descriptor_safe_iff { desc_ := 3 } CUDNN_STATUS_SUCCESS
      cudnnTensorFormat_t.CUDNN_TENSOR_NCHW cudnnDataType_t.CUDNN_DATA_FLOAT [2, 8, 5, 5] 0
      { live := [(DescKind.tensor, 3)], calls := [] }).2.2.2,
    (ScopedTensorDescriptor.descriptor_safe_iff { desc_ := 3 } CUDNN_STATUS_SUCCESS
      cudnnTensorFormat_t.CUDNN_TENSOR_NCHW cudnnDataType_t.CUDNN_DATA_FLOAT [7] 2
      { live := [(DescKind.tensor, 3)], calls := [] }).2.1 (by decide) (by decide)⟩

/-! ## `ScopedTensorDescriptor::descriptor`: the strides -/

/-- The loop invariant: with `k` iterations left, the entries from `k` on are already the
products of the dimensions that follow them. -/
theorem ScopedTensorDescriptor.stridesLoop_packed (dims : List Int)
    (hfit : ∀ i : Nat, 1 ≤ i → i ≤ dims.length → fitsInt32 (dims.drop i).prod) :
    ∀ (k : Nat) (strides : List Int), strides.length = dims.length → k + 1 ≤ dims.length →
      k ≤ 2147483647 →
      (∀ j : Nat, k ≤ j → j < dims.length → strides[j]? = some (dims.drop (j + 1)).prod) →
      ∃ s, ScopedTensorDescriptor.stridesLoop dims k strides = Except.ok s ∧
        s.length = dims.length ∧
        ∀ j : Nat, j < dims.length → s[j]? = some (dims.drop (j + 1)).prod := by
  intro k
  induction k with
  | zero =>
    intro strides hlen _ _ hinv
    exact ⟨strides, rfl, hlen, fun j hj => hinv j (Nat.zero_le j) hj⟩
  | succ i ih =>
    intro strides hlen hk hmax hinv
    have hd : i + 1 < dims.length := by omega
    have hs : i + 1 < strides.length := by omega
    rw [ScopedTensorDescriptor.stridesLoop_step dims strides i hd hs (by omega)]
    have hnext : strides[i + 1] = (dims.drop (i + 1 + 1)).prod := by
      have h := hinv (i + 1) (Nat.le_refl _) hd
      rw [List.getElem?_eq_getElem hs] at h
      exact Option.some.inj h
    have hval : mulInt32 dims[i + 1] strides[i + 1] = (dims.drop (i + 1)).prod := by
      unfold mulInt32
      rw [hnext, List.drop_eq_getElem_cons hd, List.prod_cons]
      apply wrapInt32_of_fits
      have h := hfit (i + 1) (by omega) (by omega)
      rw [List.drop_eq_getElem_cons hd, List.prod_cons] at h
      exact h
    rw [hval]
    apply ih
    · rw [List.length_set]
      exact hlen
    · omega
    · omega
    · intro j hij hj
      by_cases hji : i = j
      · subst hji
        rw [List.getElem?_set_self (by omega)]
      · rw [List.getElem?_set_ne hji]
        exact hinv j (by omega) hj

/-- The strides after the loop, for a vector of at most `2^31` entries. -/
theorem ScopedTensorDescriptor.stridesPart_packed (dims : List Int) (hne : dims ≠ [])
    (hlen : dims.length ≤ 2147483648)
    (hfit : ∀ i : Nat, 1 ≤ i → i ≤ dims.length → fitsInt32 (dims.drop i).prod) :
    ∃ s, ScopedTensorDescriptor.stridesPart dims = Except.ok s ∧
      s.length = dims.length ∧
      ∀ j : Nat, j < dims.length → s[j]? = some (dims.drop (j + 1)).prod := by
  have hpos : 1 ≤ dims.length := by
    cases dims with
    | nil => exact absurd rfl hne
    | cons _ _ => simp
  unfold ScopedTensorDescriptor.stridesPart
  rw [vecSet_of_lt _ _ _ (by rw [List.length_replicate]; exact sizeSub_one_lt _ hpos),
    sizeSub_one_eq _ hpos, ScopedTensorDescriptor.loopCount_small _ hpos (by omega)]
  show ∃ s, ScopedTensorDescriptor.stridesLoop dims (dims.length - 1)
      ((List.replicate dims.length (0 : Int)).set (dims.length - 1) 1) = Except.ok s ∧ _
  apply ScopedTensorDescriptor.stridesLoop_packed dims hfit
  · rw [List.length_set, List.length_replicate]
  · omega
  · omega
  · intro j hj₁ hj₂
    have hj : j = dims.length - 1 := by omega
    subst hj
    rw [List.getElem?_set_self (by rw [List.length_replicate]; omega),
      List.drop_eq_nil_of_le (by omega)]
    rfl

/-- When the loop does not run, the strides are those of the initialisation. -/
theorem ScopedTensorDescriptor.stridesPart_of_loopCount_zero (dims : List Int)
    (hpos : 1 ≤ dims.length)
    (hcount : ScopedTensorDescriptor.loopCount dims.length = 0) :
    ScopedTensorDescriptor.stridesPart dims =
      Except.ok ((List.replicate dims.length (0 : Int)).set (dims.length - 1) 1) := by
  unfold ScopedTensorDescriptor.stridesPart
  rw [vecSet_of_lt _ _ _ (by rw [List.length_replicate]; exact sizeSub_one_lt _ hpos),
    sizeSub_one_eq _ hpos, hcount]
  rfl

/-- A vector of ones so long that the `int` loop variable starts below zero: the loop
does not run and the strides passed are zero but for the last. -/
theorem ScopedTensorDescriptor.descriptor_of_ones (size : Nat) (hsize : 2 ≤ size)
    (hcount : ScopedTensorDescriptor.loopCount size = 0) (self : ScopedTensorDescriptor)
    (st : cudnnStatus_t) (format : cudnnTensorFormat_t) (type : cudnnDataType_t) (w : World) :
    List.replicate size (1 : Int) ≠ [] ∧
    (∀ i : Nat, fitsInt32 ((List.replicate size (1 : Int)).drop i).prod) ∧
    ∃ strides : List Int,
      ScopedTensorDescriptor.descriptor self st format type (List.replicate size 1) 1 w =
        vendorSetOutcome self.desc_ st
          (VendorCall.setTensorNd self.desc_ type size (List.replicate size 1) strides) w ∧
      strides[0]? = some 0 ∧
      ((List.replicate size (1 : Int)).drop (0 + 1)).prod = 1 := by
  have hlen : (List.replicate size (1 : Int)).length = size := List.length_replicate _ _
  have hprod : ∀ i : Nat, ((List.replicate size (1 : Int)).drop i).prod = 1 := by
    intro i
    rw [List.drop_replicate, List.prod_replicate, one_pow]
  refine ⟨?_, ?_, (List.replicate size (0 : Int)).set (size - 1) 1, ?_, ?_, hprod _⟩
  · intro h
    rw [h] at hlen
    simp at hlen
    omega
  · intro i
    rw [hprod i]
    unfold fitsInt32
    omega
  · have hs := ScopedTensorDescriptor.stridesPart_of_loopCount_zero
      (List.replicate size (1 : Int)) (by rw [hlen]; omega) (by rw [hlen]; exact hcount)
    have hd := ScopedTensorDescriptor.dimsPart_ungrouped (List.replicate size (1 : Int)) 1
      (Int.le_refl 1)
    have h := ScopedTensorDescriptor.descriptor_of_parts self st format type
      (List.replicate size (1 : Int)) 1 w _ _ hs hd
    rw [hlen] at h
    exact h
  · rw [List.getElem?_set_ne (by omega), List.getElem?_replicate, if_pos (by omega)]

/-- C9, as stated, fails at two inputs.  For `2^31 + 2` dimensions equal to 1, whose
products all fit, `int i = dims.size() - 2` is `-2^31`, the loop does not run, and
stride 0 is passed as 0 although the product of the dimensions after it is 1.  And for
`dims = [2, 0, 5]` in 2 groups the dimensions forwarded are `[2, 0, 5]` and stride 0 is
0, which is the product of the forwarded dimensions after the first. -/
theorem ScopedTensorDescriptor.descriptor_strides_not_always_packed :
    (List.replicate 2147483650 (1 : Int) ≠ [] ∧
      (∀ i : Nat, fitsInt32 ((List.replicate 2147483650 (1 : Int)).drop i).prod) ∧
      ∃ strides : List Int,
        ScopedTensorDescriptor.descriptor { desc_ := 3 } CUDNN_STATUS_SUCCESS
            cudnnTensorFormat_t.CUDNN_TENSOR_NCHW cudnnDataType_t.CUDNN_DATA_FLOAT
            (List.replicate 2147483650 1) 1 { live := [(DescKind.tensor, 3)], calls := [] } =
          vendorSetOutcome 3 CUDNN_STATUS_SUCCESS
            (VendorCall.setTensorNd 3 cudnnDataType_t.CUDNN_DATA_FLOAT 2147483650
              (List.replicate 2147483650 1) strides)
            { live := [(DescKind.tensor, 3)], calls := [] } ∧
        strides[0]? = some 0 ∧
        ((List.replicate 2147483650 (1 : Int)).drop (0 + 1)).prod = 1) ∧
    (ScopedTensorDescriptor.descriptor { desc_ := 3 } CUDNN_STATUS_SUCCESS
          cudnnTensorFormat_t.CUDNN_TENSOR_NCHW cudnnDataType_t.CUDNN_DATA_FLOAT
          [2, 0, 5] 2 { live := [(DescKind.tensor, 3)], calls := [] } =
        vendorSetOutcome 3 CUDNN_STATUS_SUCCESS
          (VendorCall.setTensorNd 3 cudnnDataType_t.CUDNN_DATA_FLOAT 3 [2, 0, 5] [0, 5, 1])
          { live := [(DescKind.tensor, 3)], calls := [] } ∧
      (1 : Int) < 2 ∧ (([2, 0, 5] : List Int).drop 1).prod = 0) :=
  ⟨ScopedTensorDescriptor.descriptor_of_ones 2147483650 (by decide) (by decide)
    { desc_ := 3 } CUDNN_STATUS_SUCCESS cudnnTensorFormat_t.CUDNN_TENSOR_NCHW
    cudnnDataType_t.CUDNN_DATA_FLOAT { live := [(DescKind.tensor, 3)], calls := [] },
   by decide, by decide, by decide⟩

/-- C9, amended: for every non-empty `dims` of at most `2^31` entries whose products of
trailing entries fit in a 32-bit `int`, the stride vector that
`ScopedTensorDescriptor::descriptor` passes to `cudnnSetTensorNdDescriptor` is the fully
packed row-major stride vector of the original `dims`: it has the length of `dims`, its
last entry is 1 and its entry `i` is the product of `dims[i+1], ..., dims[n-1]`.  It is
the same vector for every `format` and every `groups` with which the call is made: for
`groups > 1` stride 0 is the product of the original, not of the forwarded, dimensions. -/
theorem ScopedTensorDescriptor.descriptor_passes_packed_strides
    (self : ScopedTensorDescriptor) (st : cudnnStatus_t) (type : cudnnDataType_t)
    (dims : List Int) (w : World) (hne : dims ≠ []) (hlen : dims.length ≤ 2147483648)
    (hfit : ∀ i : Nat, 1 ≤ i → i ≤ dims.length → fitsInt32 (dims.drop i).prod) :
    ∃ strides : List Int,
      strides.length = dims.length ∧
      strides[dims.length - 1]? = some 1 ∧
      (∀ i : Nat, i < dims.length → strides[i]? = some (dims.drop (i + 1)).prod) ∧
      ∀ (format : cudnnTensorFormat_t) (groups : Int),
        (2 ≤ dims.length ∨ (dims.length = 1 ∧ groups ≤ 1)) →
        ∃ dims_with_group : List Int,
          ScopedTensorDescriptor.descriptor self st format type dims groups w =
            vendorSetOutcome self.desc_ st
              (VendorCall.setTensorNd self.desc_ type dims.length dims_with_group strides)
              w := by
  have hpos : 1 ≤ dims.length := by
    cases dims with
    | nil => exact absurd rfl hne
    | cons _ _ => simp
  obtain ⟨strides, hs, hl, hall⟩ :=
    ScopedTensorDescriptor.stridesPart_packed dims hne hlen hfit
  refine ⟨strides, hl, ?_, hall, ?_⟩
  · rw [hall (dims.length - 1) (by omega), List.drop_eq_nil_of_le (by omega)]
    rfl
  · intro format groups hsafe
    have hsafe' : (2 ≤ dims.length ∧ dims.length % 4294967296 ≠ 2147483649) ∨
        (dims.length = 1 ∧ groups ≤ 1) := by
      cases hsafe with
      | inl h => exact Or.inl ⟨h, by omega⟩
      | inr h => exact Or.inr h
    obtain ⟨dg, strides', hs', _, _, h⟩ :=
      ScopedTensorDescriptor.tensor_descriptor_defined self st format type dims groups w
        hsafe'
    rw [hs] at hs'
    cases hs'
    exact ⟨dg, h⟩

/-- C9, amended, at a concrete tensor: the strides of `[2, 8, 5, 5]` are
`[200, 25, 5, 1]`, the products of the original dimensions. -/
theorem ScopedTensorDescriptor.descriptor_passes_packed_strides_witness :
    ∃ strides : List Int,
      strides.length = ([2, 8, 5, 5] : List Int).length ∧
      strides[([2, 8, 5, 5] : List Int).length - 1]? = some 1 ∧
      (∀ i : Nat, i < ([2, 8, 5, 5] : List Int).length →
        strides[i]? = some (([2, 8, 5, 5] : List Int).drop (i + 1)).prod) ∧
      ∀ (format : cudnnTensorFormat_t) (groups : Int),
        (2 ≤ ([2, 8, 5, 5] : List Int).length ∨
          (([2, 8, 5, 5] : List Int).length = 1 ∧ groups ≤ 1)) →
        ∃ dims_with_group : List Int,
          ScopedTensorDescriptor.descriptor { desc_ := 3 } CUDNN_STATUS_SUCCESS format
              cudnnDataType_t.CUDNN_DATA_FLOAT [2, 8, 5, 5] groups
              { live := [(DescKind.tensor, 3)], calls := [] } =
            vendorSetOutcome 3 CUDNN_STATUS_SUCCESS
              (VendorCall.setTensorNd 3 cudnnDataType_t.CUDNN_DATA_FLOAT
                ([2, 8, 5, 5] : List Int).length dims_with_group strides)
              { live := [(DescKind.tensor, 3)], calls := [] } :=
  ScopedTensorDescriptor.descriptor_passes_packed_strides { desc_ := 3 }
    CUDNN_STATUS_SUCCESS cudnnDataType_t.CUDNN_DATA_FLOAT [2, 8, 5, 5]
    { live := [(DescKind.tensor, 3)], calls := [] } (by decide) (by decide)
    (by
      intro i h₁ h₂
      have h : i = 1 ∨ i = 2 ∨ i = 3 ∨ i = 4 := by
        simp only [List.length_cons, List.length_nil] at h₂
        omega
      rcases h with h | h | h | h <;> subst h <;> decide)

/-! ## Live handles -/

theorem vendorSetOutcome_live (desc : Handle) (st : cudnnStatus_t) (c : VendorCall)
    (w w' : World) (h : (vendorSetOutcome desc st c w).world? = some w') :
    w'.live = w.live := by
  unfold vendorSetOutcome at h
  split at h <;> simp only [Outcome.world?, Option.some.injEq] at h <;> rw [← h]

theorem vendorSetOutcome_propagates (desc : Handle) (st : cudnnStatus_t) (c : VendorCall)
    (w : World) : Propagates desc st (vendorSetOutcome desc st c w) w := by
  unfold Propagates vendorSetOutcome
  constructor
  · intro h
    rw [if_pos h]
    exact ⟨_, rfl, rfl⟩
  · intro h
    rw [if_neg h]
    exact ⟨_, rfl, rfl⟩

theorem raises_live {α : Type} (e : EnforceNotMet) (w w' : World)
    (h : (Outcome.raises e w : Outcome α).world? = some w') : w'.live = w.live := by
  simp only [Outcome.world?, Option.some.injEq] at h
  rw [← h]

theorem ScopedTensorDescriptor.tensor_descriptor_live (self : ScopedTensorDescriptor)
    (st : cudnnStatus_t) (format : cudnnTensorFormat_t) (type : cudnnDataType_t)
    (dims : List Int) (groups : Int) (w w' : World)
    (h : (ScopedTensorDescriptor.descriptor self st format type dims groups w).world? =
      some w') : w'.live = w.live := by
  unfold ScopedTensorDescriptor.descriptor at h
  cases ha : ScopedTensorDescriptor.arrays dims groups with
  | error u =>
    rw [ha] at h
    simp [Outcome.world?] at h
  | ok r =>
    rw [ha] at h
    simp only [PADDLE_ENFORCE_set] at h
    exact vendorSetOutcome_live _ _ _ _ _ h

theorem ScopedTensorDescriptor.tensor_call_live (self : ScopedTensorDescriptor)
    (a : ScopedTensorDescriptor.Call) (w w' : World)
    (h : (ScopedTensorDescriptor.call self a w).world? = some w') : w'.live = w.live := by
  cases a with
  | direct st format type dims groups =>
    exact ScopedTensorDescriptor.tensor_descriptor_live self st format type dims groups w w' h
  | templated st T order dims groups =>
    simp only [ScopedTensorDescriptor.call, ScopedTensorDescriptor.descriptorT] at h
    cases hf : GetCudnnTensorFormat order with
    | error e =>
      rw [hf] at h
      exact raises_live e w w' h
    | ok format =>
      rw [hf] at h
      exact ScopedTensorDescriptor.tensor_descriptor_live self st format _ dims groups w w' h

theorem ScopedFilterDescriptor.filter_descriptor_live (self : ScopedFilterDescriptor)
    (st : cudnnStatus_t) (format : cudnnTensorFormat_t) (type : cudnnDataType_t)
    (kernel : List Int) (groups : Int) (w w' : World)
    (h : (ScopedFilterDescriptor.descriptor self st format type kernel groups w).world? =
      some w') : w'.live = w.live := by
  unfold ScopedFilterDescriptor.descriptor at h
  cases ha : ScopedFilterDescriptor.arrays kernel groups with
  | error u =>
    rw [ha] at h
    simp [Outcome.world?] at h
  | ok r =>
    rw [ha] at h
    simp only [PADDLE_ENFORCE_set] at h
    exact vendorSetOutcome_live _ _ _ _ _ h

theorem ScopedFilterDescriptor.filter_call_live (self : ScopedFilterDescriptor)
    (a : ScopedFilterDescriptor.Call) (w w' : World)
    (h : (ScopedFilterDescriptor.call self a w).world? = some w') : w'.live = w.live := by
  cases a with
  | direct st format type kernel groups =>
    exact ScopedFilterDescriptor.filter_descriptor_live self st format type kernel groups w w' h
  | templated st T order kernel groups =>
    simp only [ScopedFilterDescriptor.call, ScopedFilterDescriptor.descriptorT] at h
    cases hf : GetCudnnTensorFormat order with
    | error e =>
      rw [hf] at h
      exact raises_live e w w' h
    | ok format =>
      rw [hf] at h
      exact ScopedFilterDescriptor.filter_descriptor_live self st format _ kernel groups w w' h

theorem ScopedConvolutionDescriptor.convolution_descriptor_live (CUDNN_VERSION : Nat)
    (self : ScopedConvolutionDescriptor) (st : cudnnStatus_t) (type : cudnnDataType_t)
    (pads strides dilations : List Int) (w w' : World)
    (h : (ScopedConvolutionDescriptor.descriptor CUDNN_VERSION self st type pads strides
      dilations w).world? = some w') : w'.live = w.live := by
  unfold ScopedConvolutionDescriptor.descriptor at h
  split at h
  · exact raises_live _ w w' h
  · split at h
    · exact raises_live _ w w' h
    · split at h
      · exact raises_live _ w w' h
      · simp only [PADDLE_ENFORCE_set] at h
        exact vendorSetOutcome_live _ _ _ _ _ h

theorem ScopedConvolutionDescriptor.convolution_call_live (CUDNN_VERSION : Nat)
    (self : ScopedConvolutionDescriptor) (a : ScopedConvolutionDescriptor.Call) (w w' : World)
    (h : (ScopedConvolutionDescriptor.call CUDNN_VERSION self a w).world? = some w') :
    w'.live = w.live := by
  cases a with
  | direct st type pads strides dilations =>
    exact ScopedConvolutionDescriptor.convolution_descriptor_live CUDNN_VERSION self st type pads strides
      dilations w w' h
  | templated st T pads strides dilations =>
    exact ScopedConvolutionDescriptor.convolution_descriptor_live CUDNN_VERSION self st _ pads strides
      dilations w w' h

theorem ScopedPoolingDescriptor.pooling_call_live (self : ScopedPoolingDescriptor)
    (a : ScopedPoolingDescriptor.Call) (w w' : World)
    (h : (ScopedPoolingDescriptor.call self a w).world? = some w') : w'.live = w.live := by
  unfold ScopedPoolingDescriptor.call ScopedPoolingDescriptor.descriptor at h
  split at h
  · exact raises_live _ w w' h
  · split at h
    · exact raises_live _ w w' h
    · simp only [PADDLE_ENFORCE_set] at h
      exact vendorSetOutcome_live _ _ _ _ _ h

theorem construct_success {S : Type} (kind : DescKind) (h : Handle) (w : World) (self : S) :
    ∃ w', PADDLE_ENFORCE CUDNN_STATUS_SUCCESS
        (cudnnCreateDescriptor kind CUDNN_STATUS_SUCCESS h w) self = Outcome.returns self w' ∧
      w'.live = (kind, h) :: w.live := by
  unfold PADDLE_ENFORCE cudnnCreateDescriptor
  rw [if_pos rfl]
  exact ⟨_, rfl, by simp⟩

theorem construct_failure {S : Type} (kind : DescKind) (st : cudnnStatus_t) (h : Handle)
    (w : World) (self : S) (hst : st ≠ CUDNN_STATUS_SUCCESS) :
    ∃ w', PADDLE_ENFORCE st (cudnnCreateDescriptor kind st h w) self =
        Outcome.raises (EnforceNotMet.status st) w' ∧
      w'.live = w.live := by
  unfold PADDLE_ENFORCE cudnnCreateDescriptor
  rw [if_neg hst]
  exact ⟨_, rfl, by simp [hst]⟩

theorem destruct_live (kind : DescKind) (h : Handle) (w : World) (hlive : (kind, h) ∈ w.live) :
    ∃ w', noexceptDestructor (PADDLE_ENFORCE (cudnnDestroyDescriptor kind h w).1
        (cudnnDestroyDescriptor kind h w).2 ()) = Outcome.returns () w' ∧
      w'.live = w.live.erase (kind, h) := by
  unfold cudnnDestroyDescriptor
  rw [if_pos hlive]
  unfold PADDLE_ENFORCE
  rw [if_pos rfl]
  exact ⟨_, rfl, rfl⟩

theorem runCalls_live {S A : Type} (call : S → A → World → Outcome Handle) (self : S)
    (hcall : ∀ (a : A) (w w' : World), (call self a w).world? = some w' → w'.live = w.live) :
    ∀ (calls : List A) (w w' : World),
      (runCalls call self calls w).world? = some w' → w'.live = w.live := by
  intro calls
  induction calls with
  | nil =>
    intro w w' h
    simp only [runCalls, Outcome.world?, Option.some.injEq] at h
    rw [← h]
  | cons a rest ih =>
    intro w w' h
    unfold runCalls at h
    cases hc : call self a w with
    | returns d w₁ =>
      rw [hc] at h
      have h₁ := hcall a w w₁ (by rw [hc]; rfl)
      rw [ih w₁ w' h, h₁]
    | raises e w₁ =>
      rw [hc] at h
      have h₁ := hcall a w w₁ (by rw [hc]; rfl)
      simp only [Outcome.world?, Option.some.injEq] at h
      rw [← h, h₁]
    | terminates w₁ =>
      rw [hc] at h
      simp [Outcome.world?] at h
    | undefined u =>
      rw [hc] at h
      simp [Outcome.world?] at h

theorem runCalls_defined {S A : Type} (call : S → A → World → Outcome Handle) (self : S) :
    ∀ (calls : List A) (w : World),
      (∀ a ∈ calls, ∀ (self : S) (w₁ : World), (call self a w₁).world? ≠ none) →
      (runCalls call self calls w).world? ≠ none := by
  intro calls
  induction calls with
  | nil =>
    intro w _
    simp [runCalls, Outcome.world?]
  | cons a rest ih =>
    intro w hdef
    unfold runCalls
    cases hc : call self a w with
    | returns d w₁ =>
      exact ih w₁ (fun b hb => hdef b (List.mem_cons_of_mem a hb))
    | raises e w₁ => simp [Outcome.world?]
    | terminates w₁ =>
      have h := hdef a (List.mem_cons_self a rest) self w
      rw [hc] at h
      exact absurd rfl h
    | undefined u =>
      have h := hdef a (List.mem_cons_self a rest) self w
      rw [hc] at h
      exact absurd rfl h

/-- A wrapper whose constructor, calls and destructor treat the live handles as stated
does not leak over its lifetime. -/
theorem noLeak_of_parts {S A : Type} (kind : DescKind) (desc : S → Handle)
    (construct : cudnnStatus_t → Handle → World → Outcome S)
    (call : S → A → World → Outcome Handle) (destruct : S → World → Outcome Unit)
    (hc₁ : ∀ (h : Handle) (w : World),
      ∃ self w', construct CUDNN_STATUS_SUCCESS h w = Outcome.returns self w' ∧
        desc self = h ∧ w'.live = (kind, h) :: w.live)
    (hc₂ : ∀ (st : cudnnStatus_t) (h : Handle) (w : World), st ≠ CUDNN_STATUS_SUCCESS →
      ∃ w', construct st h w = Outcome.raises (EnforceNotMet.status st) w' ∧
        w'.live = w.live)
    (hcall : ∀ (self : S) (a : A) (w w' : World),
      (call self a w).world? = some w' → w'.live = w.live)
    (hd : ∀ (self : S) (w : World), (kind, desc self) ∈ w.live →
      ∃ w', destruct self w = Outcome.returns () w' ∧
        w'.live = w.live.erase (kind, desc self)) :
    NoLeak kind desc construct call destruct := by
  have hdestruct : ∀ (self : S) (h : Handle) (w w₂ : World), desc self = h →
      w₂.live = (kind, h) :: w.live →
      ∃ w₃, destruct self w₂ = Outcome.returns () w₃ ∧ w₃.live = w.live := by
    intro self h w w₂ hself hlive
    obtain ⟨w₃, h₃, hl₃⟩ := hd self w₂ (by rw [hself, hlive]; exact List.mem_cons_self _ _)
    refine ⟨w₃, h₃, ?_⟩
    rw [hl₃, hself, hlive, List.erase_cons_head]
  refine ⟨hc₁, hc₂, hcall, hd, ?_, ?_⟩
  · intro st h calls w w' hw
    unfold scopedLifetime at hw
    by_cases hst : st = CUDNN_STATUS_SUCCESS
    · subst hst
      obtain ⟨self, w₁, hcons, hself, hl₁⟩ := hc₁ h w
      rw [hcons] at hw
      simp only [] at hw
      cases hr : runCalls call self calls w₁ with
      | returns d w₂ =>
        rw [hr] at hw
        simp only [] at hw
        have hl₂ := runCalls_live call self (hcall self) calls w₁ w₂ (by rw [hr]; rfl)
        obtain ⟨w₃, h₃, hl₃⟩ := hdestruct self h w w₂ hself (by rw [hl₂, hl₁])
        rw [h₃] at hw
        simp only [Outcome.world?, Option.some.injEq] at hw
        rw [← hw, hl₃]
      | raises e w₂ =>
        rw [hr] at hw
        simp only [] at hw
        have hl₂ := runCalls_live call self (hcall self) calls w₁ w₂ (by rw [hr]; rfl)
        obtain ⟨w₃, h₃, hl₃⟩ := hdestruct self h w w₂ hself (by rw [hl₂, hl₁])
        rw [h₃] at hw
        simp only [Outcome.world?, Option.some.injEq] at hw
        rw [← hw, hl₃]
      | terminates w₂ =>
        rw [hr] at hw
        simp [Outcome.world?] at hw
      | undefined u =>
        rw [hr] at hw
        simp [Outcome.world?] at hw
    · obtain ⟨w₁, hcons, hl₁⟩ := hc₂ st h w hst
      rw [hcons] at hw
      simp only [Outcome.world?, Option.some.injEq] at hw
      rw [← hw, hl₁]
  · intro st h calls w hdef
    unfold scopedLifetime
    by_cases hst : st = CUDNN_STATUS_SUCCESS
    · subst hst
      obtain ⟨self, w₁, hcons, hself, hl₁⟩ := hc₁ h w
      rw [hcons]
      simp only []
      cases hr : runCalls call self calls w₁ with
      | returns d w₂ =>
        simp only []
        have hl₂ := runCalls_live call self (hcall self) calls w₁ w₂ (by rw [hr]; rfl)
        obtain ⟨w₃, h₃, _⟩ := hdestruct self h w w₂ hself (by rw [hl₂, hl₁])
        rw [h₃]
        simp [Outcome.world?]
      | raises e w₂ =>
        simp only []
        have hl₂ := runCalls_live call self (hcall self) calls w₁ w₂ (by rw [hr]; rfl)
        obtain ⟨w₃, h₃, _⟩ := hdestruct self h w w₂ hself (by rw [hl₂, hl₁])
        rw [h₃]
        simp [Outcome.world?]
      | terminates w₂ =>
        have h := runCalls_defined call self calls w₁ hdef
        rw [hr] at h
        exact absurd rfl h
      | undefined u =>
        have h := runCalls_defined call self calls w₁ hdef
        rw [hr] at h
        exact absurd rfl h
    · obtain ⟨w₁, hcons, _⟩ := hc₂ st h w hst
      rw [hcons]
      simp [Outcome.world?]

/-- C1: none of the four scoped wrappers leaks a vendor handle.  For
`ScopedTensorDescriptor`, `ScopedFilterDescriptor`, `ScopedConvolutionDescriptor` (at
every vendor version) and `ScopedPoolingDescriptor`: construction allocates exactly one
handle, every call of `descriptor()` that returns or raises neither allocates nor
releases a handle, destruction releases the handle of construction, and after every
sequence `construct, descriptor() calls, destruct` the live handles are those before
it, on the normal and on the exceptional exit path. -/
theorem scoped_wrappers_do_not_leak :
    NoLeak DescKind.tensor ScopedTensorDescriptor.desc_ ScopedTensorDescriptor.construct
      ScopedTensorDescriptor.call ScopedTensorDescriptor.destruct ∧
    NoLeak DescKind.filter ScopedFilterDescriptor.desc_ ScopedFilterDescriptor.construct
      ScopedFilterDescriptor.call ScopedFilterDescriptor.destruct ∧
    (∀ CUDNN_VERSION : Nat,
      NoLeak DescKind.convolution ScopedConvolutionDescriptor.desc_
        ScopedConvolutionDescriptor.construct
        (ScopedConvolutionDescriptor.call CUDNN_VERSION)
        ScopedConvolutionDescriptor.destruct) ∧
    NoLeak DescKind.pooling ScopedPoolingDescriptor.desc_ ScopedPoolingDescriptor.construct
      ScopedPoolingDescriptor.call ScopedPoolingDescriptor.destruct := by
  refine ⟨?_, ?_, fun CUDNN_VERSION => ?_, ?_⟩
  · apply noLeak_of_parts
    · intro h w
      obtain ⟨w', h₁, h₂⟩ := construct_success DescKind.tensor h w
        ({ desc_ := h } : ScopedTensorDescriptor)
      exact ⟨_, w', h₁, rfl, h₂⟩
    · intro st h w hst
      exact construct_failure DescKind.tensor st h w _ hst
    · exact ScopedTensorDescriptor.tensor_call_live
    · intro self w hlive
      exact destruct_live DescKind.tensor self.desc_ w hlive
  · apply noLeak_of_parts
    · intro h w
      obtain ⟨w', h₁, h₂⟩ := construct_success DescKind.filter h w
        ({ desc_ := h } : ScopedFilterDescriptor)
      exact ⟨_, w', h₁, rfl, h₂⟩
    · intro st h w hst
      exact construct_failure DescKind.filter st h w _ hst
    · exact ScopedFilterDescriptor.filter_call_live
    · intro self w hlive
      exact destruct_live DescKind.filter self.desc_ w hlive
  · apply noLeak_of_parts
    · intro h w
      obtain ⟨w', h₁, h₂⟩ := construct_success DescKind.convolution h w
        ({ desc_ := h } : ScopedConvolutionDescriptor)
      exact ⟨_, w', h₁, rfl, h₂⟩
    · intro st h w hst
      exact construct_failure DescKind.convolution st h w _ hst
    · exact ScopedConvolutionDescriptor.convolution_call_live CUDNN_VERSION
    · intro self w hlive
      exact destruct_live DescKind.convolution self.desc_ w hlive
  · apply noLeak_of_parts
    · intro h w
      obtain ⟨w', h₁, h₂⟩ := construct_success DescKind.pooling h w
        ({ desc_ := h } : ScopedPoolingDescriptor)
      exact ⟨_, w', h₁, rfl, h₂⟩
    · intro st h w hst
      exact construct_failure DescKind.pooling st h w _ hst
    · exact ScopedPoolingDescriptor.pooling_call_live
    · intro self w hlive
      exact destruct_live DescKind.pooling self.desc_ w hlive

/-- C1 at a concrete lifetime: a tensor wrapper is constructed while a filter handle is
live, configured once with success and once with a vendor failure, and destroyed by the
unwinding; the live handles are again the filter handle alone. -/
theorem scoped_wrappers_do_not_leak_witness :
    (scopedLifetime (ScopedTensorDescriptor.construct CUDNN_STATUS_SUCCESS 3)
        ScopedTensorDescriptor.call ScopedTensorDescriptor.destruct
        [ScopedTensorDescriptor.Call.direct CUDNN_STATUS_SUCCESS
            cudnnTensorFormat_t.CUDNN_TENSOR_NCHW cudnnDataType_t.CUDNN_DATA_FLOAT
            [2, 8, 5, 5] 4,
          ScopedTensorDescriptor.Call.templated CUDNN_STATUS_BAD_PARAM ScalarType.float
            DataLayout.kNCHW [2, 8] 1]
        { live := [(DescKind.filter, 1)], calls := [] }).world? =
      some
        { live := [(DescKind.filter, 1)],
          calls :=
            [VendorCall.create DescKind.tensor CUDNN_STATUS_SUCCESS 3,
              VendorCall.setTensorNd 3 cudnnDataType_t.CUDNN_DATA_FLOAT 4 [2, 2, 5, 5]
                [200, 25, 5, 1],
              VendorCall.setTensorNd 3 cudnnDataType_t.CUDNN_DATA_FLOAT 2 [2, 8] [8, 1],
              VendorCall.destroy DescKind.tensor 3] } ∧
    ({ live := [(DescKind.filter, 1)],
       calls :=
        [VendorCall.create DescKind.tensor CUDNN_STATUS_SUCCESS 3,
          VendorCall.setTensorNd 3 cudnnDataType_t.CUDNN_DATA_FLOAT 4 [2, 2, 5, 5]
            [200, 25, 5, 1],
          VendorCall.setTensorNd 3 cudnnDataType_t.CUDNN_DATA_FLOAT 2 [2, 8] [8, 1],
          VendorCall.destroy DescKind.tensor 3] } : World).live =
      ({ live := [(DescKind.filter, 1)], calls := [] } : World).live :=
  ⟨by decide,
    scoped_wrappers_do_not_leak.1.2.2.2.2.1 CUDNN_STATUS_SUCCESS 3
      [ScopedTensorDescriptor.Call.direct CUDNN_STATUS_SUCCESS
          cudnnTensorFormat_t.CUDNN_TENSOR_NCHW cudnnDataType_t.CUDNN_DATA_FLOAT
          [2, 8, 5, 5] 4,
        ScopedTensorDescriptor.Call.templated CUDNN_STATUS_BAD_PARAM ScalarType.float
          DataLayout.kNCHW [2, 8] 1]
      { live := [(DescKind.filter, 1)], calls := [] } _ (by decide)⟩

/-! ## Propagation of the vendor status -/

theorem ScopedFilterDescriptor.filter_descriptor_defined (self : ScopedFilterDescriptor)
    (st : cudnnStatus_t) (format : cudnnTensorFormat_t) (type : cudnnDataType_t)
    (kernel : List Int) (groups : Int) (w : World) (hsafe : kernel ≠ [] ∨ groups ≤ 1) :
    ∃ kernel_with_group : List Int,
      ScopedFilterDescriptor.descriptor self st format type kernel groups w =
        vendorSetOutcome self.desc_ st
          (VendorCall.setFilterNd self.desc_ type format kernel_with_group.length
            kernel_with_group) w := by
  unfold ScopedFilterDescriptor.descriptor
  by_cases hg : 1 < groups
  · have hne : kernel ≠ [] := by
      cases hsafe with
      | inl h => exact h
      | inr h => omega
    cases kernel with
    | nil => exact absurd rfl hne
    | cons m rest =>
      rw [ScopedFilterDescriptor.arrays_grouped m rest groups hg]
      exact ⟨_, PADDLE_ENFORCE_set _ _ _ _⟩
  · rw [ScopedFilterDescriptor.arrays_ungrouped kernel groups (by omega)]
    exact ⟨_, PADDLE_ENFORCE_set _ _ _ _⟩

theorem GetCudnnTensorFormat_accepts (order : DataLayout)
    (h : order ≠ DataLayout.kNCHW_VECT_C) :
    ∃ format, GetCudnnTensorFormat order = Except.ok format := by
  cases order with
  | kNHWC => exact ⟨_, rfl⟩
  | kNCHW => exact ⟨_, rfl⟩
  | kNCHW_VECT_C => exact absurd rfl h

/-- C8: every `descriptor()` operation of the four scoped wrappers propagates the
outcome of its vendor `set` call.  Given arguments that pass the operation's own checks
(and with which the tensor and filter wrappers reach the vendor call: `dims` of at least
two entries, their number not `2^31 + 1` modulo `2^32`, or of one entry with
`groups <= 1`; `kernel` non-empty or `groups <= 1`), the operation raises with the
vendor's status when that status is not success,
and returns the wrapper's own `desc_` when it is, leaving the live handles as they were;
and `desc_` is the handle the vendor gave the constructor. -/
theorem descriptor_propagates_vendor_status :
    (∀ (self : ScopedTensorDescriptor) (st : cudnnStatus_t) (format : cudnnTensorFormat_t)
        (type : cudnnDataType_t) (dims : List Int) (groups : Int) (w : World),
      ((2 ≤ dims.length ∧ dims.length % 4294967296 ≠ 2147483649) ∨
        (dims.length = 1 ∧ groups ≤ 1)) →
      Propagates self.desc_ st
        (ScopedTensorDescriptor.descriptor self st format type dims groups w) w) ∧
    (∀ (self : ScopedTensorDescriptor) (st : cudnnStatus_t) (T : ScalarType)
        (order : DataLayout) (dims : List Int) (groups : Int) (w : World),
      order ≠ DataLayout.kNCHW_VECT_C →
      ((2 ≤ dims.length ∧ dims.length % 4294967296 ≠ 2147483649) ∨
        (dims.length = 1 ∧ groups ≤ 1)) →
      Propagates self.desc_ st
        (ScopedTensorDescriptor.descriptorT self st T order dims groups w) w) ∧
    (∀ (self : ScopedFilterDescriptor) (st : cudnnStatus_t) (format : cudnnTensorFormat_t)
        (type : cudnnDataType_t) (kernel : List Int) (groups : Int) (w : World),
      (kernel ≠ [] ∨ groups ≤ 1) →
      Propagates self.desc_ st
        (ScopedFilterDescriptor.descriptor self st format type kernel groups w) w) ∧
    (∀ (self : ScopedFilterDescriptor) (st : cudnnStatus_t) (T : ScalarType)
        (order : DataLayout) (kernel : List Int) (groups : Int) (w : World),
      order ≠ DataLayout.kNCHW_VECT_C →
      (kernel ≠ [] ∨ groups ≤ 1) →
      Propagates self.desc_ st
        (ScopedFilterDescriptor.descriptorT self st T order kernel groups w) w) ∧
    (∀ (CUDNN_VERSION : Nat) (self : ScopedConvolutionDescriptor) (st : cudnnStatus_t)
        (type : cudnnDataType_t) (pads strides dilations : List Int) (w : World),
      pads.length = strides.length → pads.length = dilations.length →
      (6000 ≤ CUDNN_VERSION ∨ ∀ d ∈ dilations, d = 1) →
      Propagates self.desc_ st
        (ScopedConvolutionDescriptor.descriptor CUDNN_VERSION self st type pads strides
          dilations w) w) ∧
    (∀ (CUDNN_VERSION : Nat) (self : ScopedConvolutionDescriptor) (st : cudnnStatus_t)
        (T : ScalarType) (pads strides dilations : List Int) (w : World),
      pads.length = strides.length → pads.length = dilations.length →
      (6000 ≤ CUDNN_VERSION ∨ ∀ d ∈ dilations, d = 1) →
      Propagates self.desc_ st
        (ScopedConvolutionDescriptor.descriptorT CUDNN_VERSION self st T pads strides
          dilations w) w) ∧
    (∀ (self : ScopedPoolingDescriptor) (st : cudnnStatus_t) (mode : PoolingMode)
        (kernel pads strides : List Int) (w : World),
      kernel.length = pads.length → kernel.length = strides.length →
      Propagates self.desc_ st
        (ScopedPoolingDescriptor.descriptor self st mode kernel pads strides w) w) ∧
    (∀ (h : Handle) (w : World),
      (∃ w', ScopedTensorDescriptor.construct CUDNN_STATUS_SUCCESS h w =
        Outcome.returns { desc_ := h } w') ∧
      (∃ w', ScopedFilterDescriptor.construct CUDNN_STATUS_SUCCESS h w =
        Outcome.returns { desc_ := h } w') ∧
      (∃ w', ScopedConvolutionDescriptor.construct CUDNN_STATUS_SUCCESS h w =
        Outcome.returns { desc_ := h } w') ∧
      (∃ w', ScopedPoolingDescriptor.construct CUDNN_STATUS_SUCCESS h w =
        Outcome.returns { desc_ := h } w')) := by
  have htensor : ∀ (self : ScopedTensorDescriptor) (st : cudnnStatus_t)
      (format : cudnnTensorFormat_t) (type : cudnnDataType_t) (dims : List Int)
      (groups : Int) (w : World),
      ((2 ≤ dims.length ∧ dims.length % 4294967296 ≠ 2147483649) ∨
        (dims.length = 1 ∧ groups ≤ 1)) →
      Propagates self.desc_ st
        (ScopedTensorDescriptor.descriptor self st format type dims groups w) w := by
    intro self st format type dims groups w hsafe
    obtain ⟨dg, strides, _, _, _, h⟩ :=
      ScopedTensorDescriptor.tensor_descriptor_defined self st format type dims groups w hsafe
    rw [h]
    exact vendorSetOutcome_propagates _ _ _ _
  have hfilter : ∀ (self : ScopedFilterDescriptor) (st : cudnnStatus_t)
      (format : cudnnTensorFormat_t) (type : cudnnDataType_t) (kernel : List Int)
      (groups : Int) (w : World), (kernel ≠ [] ∨ groups ≤ 1) →
      Propagates self.desc_ st
        (ScopedFilterDescriptor.descriptor self st format type kernel groups w) w := by
    intro self st format type kernel groups w hsafe
    obtain ⟨kg, h⟩ :=
      ScopedFilterDescriptor.filter_descriptor_defined self st format type kernel groups w hsafe
    rw [h]
    exact vendorSetOutcome_propagates _ _ _ _
  have hconv : ∀ (CUDNN_VERSION : Nat) (self : ScopedConvolutionDescriptor)
      (st : cudnnStatus_t) (type : cudnnDataType_t) (pads strides dilations : List Int)
      (w : World), pads.length = strides.length → pads.length = dilations.length →
      (6000 ≤ CUDNN_VERSION ∨ ∀ d ∈ dilations, d = 1) →
      Propagates self.desc_ st
        (ScopedConvolutionDescriptor.descriptor CUDNN_VERSION self st type pads strides
          dilations w) w := by
    intro V self st type pads strides dilations w h₁ h₂ hc
    rw [ScopedConvolutionDescriptor.descriptor_of_check_ok V self st type pads strides
      dilations w h₁ h₂ (ScopedConvolutionDescriptor.dilationCheck_ok V dilations hc)]
    exact vendorSetOutcome_propagates _ _ _ _
  refine ⟨htensor, ?_, hfilter, ?_, hconv, ?_, ?_, ?_⟩
  · intro self st T order dims groups w horder hsafe
    obtain ⟨format, hf⟩ := GetCudnnTensorFormat_accepts order horder
    unfold ScopedTensorDescriptor.descriptorT
    rw [hf]
    exact htensor self st format _ dims groups w hsafe
  · intro self st T order kernel groups w horder hsafe
    obtain ⟨format, hf⟩ := GetCudnnTensorFormat_accepts order horder
    unfold ScopedFilterDescriptor.descriptorT
    rw [hf]
    exact hfilter self st format _ kernel groups w hsafe
  · intro V self st T pads strides dilations w h₁ h₂ hc
    exact hconv V self st _ pads strides dilations w h₁ h₂ hc
  · intro self st mode kernel pads strides w h₁ h₂
    unfold ScopedPoolingDescriptor.descriptor
    rw [if_neg (not_not.mpr h₁), if_neg (not_not.mpr h₂), PADDLE_ENFORCE_set]
    exact vendorSetOutcome_propagates _ _ _ _
  · intro h w
    refine ⟨⟨_, rfl⟩, ⟨_, rfl⟩, ⟨_, rfl⟩, ⟨_, rfl⟩⟩

/-- C8 at a concrete call: a tensor wrapper on handle 3 returns handle 3 when the vendor
accepts the configuration. -/
theorem descriptor_propagates_vendor_status_witness :
    Propagates 3 CUDNN_STATUS_SUCCESS
      (ScopedTensorDescriptor.descriptor { desc_ := 3 } CUDNN_STATUS_SUCCESS
        cudnnTensorFormat_t.CUDNN_TENSOR_NCHW cudnnDataType_t.CUDNN_DATA_FLOAT [2, 8, 5, 5] 4
        { live := [(DescKind.tensor, 3)], calls := [] })
      { live := [(DescKind.tensor, 3)], calls := [] } :=
  descriptor_propagates_vendor_status.1 { desc_ := 3 } CUDNN_STATUS_SUCCESS
    cudnnTensorFormat_t.CUDNN_TENSOR_NCHW cudnnDataType_t.CUDNN_DATA_FLOAT [2, 8, 5, 5] 4
    { live := [(DescKind.tensor, 3)], calls := [] } (Or.inl ⟨by decide, by decide⟩)

end platform
end paddle
